import Mathlib

/-!
Verification of the `medical_image_generator` repository.

The Python sources (`app.py`, `image_generator.py`, `local_fallback.py`,
`text_generation.py`, `img_maker.py`) are shallowly embedded below.
Python strings are modelled as `List Char`, byte buffers as `List Nat`
(each entry intended `< 256`), and the external collaborators (the remote
Gemini service, the PIL imaging library, the filesystem clock and font
availability) are modelled by an explicit environment record threaded
through the orchestrator, together with a small filesystem state.
-/

deriving instance DecidableEq for Except

namespace MedImg

/-- Literal helper: the character list underlying a Lean string literal. -/
def str (s : String) : List Char := s.data

/-! ## Python string primitives -/

/-- Python `str.isspace` on the ASCII whitespace characters
(sufficient for the ASCII data this program manipulates). -/
def pyIsSpace (c : Char) : Bool :=
  c == ' ' || c == '\t' || c == '\n' || c == '\r' || c == '\x0b' || c == '\x0c'

/-- Python `str.lower` (ASCII). -/
def pyLower (s : List Char) : List Char := s.map Char.toLower

/-- Python `str.lstrip()`. -/
def pyLstrip (s : List Char) : List Char := s.dropWhile pyIsSpace

/-- Python `str.rstrip()`. -/
def pyRstrip (s : List Char) : List Char := (s.reverse.dropWhile pyIsSpace).reverse

/-- Python `str.strip()`. -/
def pyStrip (s : List Char) : List Char := pyRstrip (pyLstrip s)

/-- Python `str.isdigit` (ASCII digits; empty string is not a digit string). -/
def pyIsDigit (s : List Char) : Bool := !s.isEmpty && s.all Char.isDigit

/-- Python `int(...)` on a digit string, as an integer. -/
def intOfDigits (s : List Char) : Int :=
  (s.foldl (fun acc c => 10 * acc + (c.toNat - 48)) 0 : Nat)

/-- Python `str.title` worker: the Boolean carries whether the previous
character was alphabetic. -/
def pyTitleGo : Bool → List Char → List Char
  | _, [] => []
  | prevAlpha, c :: rest =>
    (if c.isAlpha then (if prevAlpha then c.toLower else c.toUpper) else c)
      :: pyTitleGo c.isAlpha rest

/-- Python `str.title` (ASCII). -/
def pyTitle (s : List Char) : List Char := pyTitleGo false s

/-- Python `dict.get(key, default)` over an association list. -/
def pyGet {α : Type} (tbl : List (List Char × α)) (k : List Char) (dflt : α) : α :=
  match tbl.find? (fun e => e.1 == k) with
  | some e => e.2
  | none => dflt

/-- Python `"\n".join(lines)`. -/
def joinNl : List (List Char) → List Char
  | [] => []
  | [l] => l
  | l :: ls => l ++ '\n' :: joinNl ls

/-- Python `s.split('\n')` worker (accumulator is reversed). -/
def splitNlGo : List Char → List Char → List (List Char)
  | acc, [] => [acc.reverse]
  | acc, c :: rest =>
    if c = '\n' then acc.reverse :: splitNlGo [] rest else splitNlGo (c :: acc) rest

/-- Python `s.split('\n')`. -/
def pySplitNl (s : List Char) : List (List Char) := splitNlGo [] s

/-- Whitespace-splitting worker for `textwrap` (accumulator is reversed):
splits on whitespace runs, dropping empty words. (`textwrap` keeps an
interior whitespace run as a chunk of its own; this model collapses runs,
which is faithful on single-spaced text and does not affect the wrapping
properties proved here, namely totality and the 35-column bound.) -/
def pyWordsGo : List Char → List Char → List (List Char)
  | acc, [] => if acc.isEmpty then [] else [acc.reverse]
  | acc, c :: rest =>
    if pyIsSpace c then
      if acc.isEmpty then pyWordsGo [] rest else acc.reverse :: pyWordsGo [] rest
    else pyWordsGo (c :: acc) rest

/-- The words of a string, in `textwrap`'s sense. -/
def pyWords (s : List Char) : List (List Char) := pyWordsGo [] s

/-- Greedy line filling at width 35 with long-word breaking: the essential
semantics of `textwrap.wrap(survey_name, width=35)` as used by
`local_fallback.py` (which always calls it with the literal width 35). -/
def wrapGo : List Char → List (List Char) → List (List Char)
  | cur, [] => if cur.isEmpty then [] else [cur]
  | cur, w :: rest =>
    if cur.isEmpty then
      if w.length ≤ 35 then wrapGo w rest
      else w.take 35 :: wrapGo [] (w.drop 35 :: rest)
    else
      if cur.length + 1 + w.length ≤ 35 then wrapGo (cur ++ ' ' :: w) rest
      else if 35 < w.length && cur.length + 1 < 35 then
        (cur ++ ' ' :: w.take (35 - (cur.length + 1)))
          :: wrapGo [] (w.drop (35 - (cur.length + 1)) :: rest)
      else cur :: wrapGo [] (w :: rest)
termination_by cur ws => 2 * (ws.map (fun w => w.length + 1)).sum + min cur.length 1
decreasing_by
  · simp [List.map_cons, List.sum_cons]; omega
  · simp [List.map_cons, List.sum_cons, List.length_drop]; omega
  · simp [List.map_cons, List.sum_cons]; omega
  · rename_i h1 _ h2
    simp only [Bool.and_eq_true, decide_eq_true_eq] at h2
    simp [List.map_cons, List.sum_cons, List.length_drop]
    omega
  · simp [List.map_cons, List.sum_cons]
    rename_i h1 _ _
    have : cur.length ≠ 0 := by simpa [List.isEmpty_iff] using h1
    omega

/-- Python `textwrap.fill(s, width=35)`. -/
def pyFill35 (s : List Char) : List Char := joinNl (wrapGo [] (pyWords s))

/-! ## Base64 (Python `base64.b64encode(...).decode('utf-8')` and its inverse) -/

/-- The standard base64 alphabet. -/
def b64chars : List Char :=
  str "ABCDEFGHIJKLMNOPQRSTUVWXYZabcdefghijklmnopqrstuvwxyz0123456789+/"

/-- Encode one 6-bit group. -/
def encChar (n : Nat) : Char := b64chars.getD n 'A'

/-- Decode one base64 character. -/
def decChar (c : Char) : Nat := b64chars.indexOf c

/-- Base64 encoding of a byte list (with `=` padding). -/
def b64encode : List Nat → List Char
  | [] => []
  | [a] => [encChar (a / 4), encChar (a % 4 * 16), '=', '=']
  | [a, b] => [encChar (a / 4), encChar (a % 4 * 16 + b / 16), encChar (b % 16 * 4), '=']
  | a :: b :: c :: rest =>
    encChar (a / 4) :: encChar (a % 4 * 16 + b / 16) :: encChar (b % 16 * 4 + c / 64)
      :: encChar (c % 64) :: b64encode rest

/-- Base64 decoding; `none` on malformed input. -/
def b64decode : List Char → Option (List Nat)
  | [] => some []
  | c1 :: c2 :: c3 :: c4 :: rest =>
    if c3 = '=' then
      if c4 = '=' && rest.isEmpty then some [decChar c1 * 4 + decChar c2 / 16] else none
    else if c4 = '=' then
      if rest.isEmpty then
        some [decChar c1 * 4 + decChar c2 / 16, decChar c2 % 16 * 16 + decChar c3 / 4]
      else none
    else
      (b64decode rest).map
        (fun tl => (decChar c1 * 4 + decChar c2 / 16)
          :: (decChar c2 % 16 * 16 + decChar c3 / 4)
          :: (decChar c3 % 4 * 64 + decChar c4) :: tl)
  | _ => none

/-! ## PIL model: images, fonts, drawing, serialisation; filesystem model -/

/-- Value of a hexadecimal digit, as accepted by Python `int(_, 16)`. -/
def hexDigitVal (c : Char) : Option Nat :=
  if c.isDigit then some (c.toNat - 48)
  else if 97 ≤ c.toNat && c.toNat ≤ 102 then some (c.toNat - 87)
  else if 65 ≤ c.toNat && c.toNat ≤ 70 then some (c.toNat - 55)
  else none

/-- Python `int(s, 16)` on a plain hex-digit string; `none` where Python raises. -/
def pyIntHex (s : List Char) : Option Nat :=
  if s.isEmpty then none
  else s.foldl (fun acc c => acc.bind (fun a => (hexDigitVal c).map (fun d => 16 * a + d))) (some 0)

/-- Python `int(s[j:j+2], 16)`. -/
def hexPair (s : List Char) (j : Nat) : Option Nat := pyIntHex ((s.drop j).take 2)

/-- `tuple(int(s[j:j+2], 16) for j in (1, 3, 5))` on a `"#rrggbb"` colour string. -/
def hexTriple (s : List Char) : Option (Nat × Nat × Nat) :=
  match hexPair s 1, hexPair s 3, hexPair s 5 with
  | some r, some g, some b => some (r, g, b)
  | _, _, _ => none

/-- A PIL font: `ImageFont.truetype("arial.ttf", size)` or the
`ImageFont.load_default()` bitmap font. -/
inductive PyFont where
  | truetype (size : Nat)
  | bitmap
deriving DecidableEq

/-- Linear character-width model for PIL text metrics. -/
def fontCharW : PyFont → Nat
  | .truetype size => size * 3 / 5
  | .bitmap => 6

/-- Model of `draw.textbbox((0, 0), s, font=f)`: the code only uses
`bbox[2] - bbox[0]`, the rendered text width. -/
def textWidthPx (f : PyFont) (s : List Char) : Nat := fontCharW f * s.length

/-- A recorded `ImageDraw` operation. -/
inductive DrawOp where
  | rectangle (x0 y0 x1 y1 : Int) (outline : Option (List Char))
      (fillColor : Option (List Char)) (lineWidth : Nat)
  | drawText (x y : Int) (s : List Char) (fillColor : List Char) (font : PyFont)
  | polygon (pts : List (Int × Int)) (fillColor : List Char)
deriving DecidableEq

/-- A PIL image: dimensions, mode, background fill, an opaque decoded pixel
payload (for images decoded from remote bytes) and recorded draw operations
(for procedurally rendered images). -/
structure Img where
  width : Nat
  height : Nat
  mode : List Char
  background : List Char
  raw : List Nat
  ops : List DrawOp
deriving DecidableEq

/-- Little-endian 4-byte serialisation of a natural number. -/
def encNat4 (n : Nat) : List Nat := [n % 256, n / 256 % 256, n / 65536 % 256, n / 16777216 % 256]

/-- Sign-plus-magnitude serialisation of an integer. -/
def encInt4 (i : Int) : List Nat := (if i < 0 then 1 else 0) :: encNat4 i.natAbs

/-- Byte serialisation of a character list. -/
def encChars (s : List Char) : List Nat := s.map (fun c => c.toNat % 256)

/-- Byte serialisation of an optional colour string. -/
def encOpt : Option (List Char) → List Nat
  | none => [0]
  | some c => 1 :: encChars c

/-- Byte serialisation of one draw operation. -/
def DrawOp.enc : DrawOp → List Nat
  | .rectangle x0 y0 x1 y1 o f w =>
    0 :: (encInt4 x0 ++ encInt4 y0 ++ encInt4 x1 ++ encInt4 y1
      ++ encOpt o ++ encOpt f ++ encNat4 w)
  | .drawText x y s f fo =>
    1 :: (encInt4 x ++ encInt4 y ++ encChars s ++ encChars f ++ encNat4 (fontCharW fo))
  | .polygon pts f =>
    2 :: ((pts.map (fun p => encInt4 p.1 ++ encInt4 p.2)).flatten ++ encChars f)

/-- The PNG signature bytes. -/
def pngSig : List Nat := [137, 80, 78, 71, 13, 10, 26, 10]

/-- Model of `pil_image.save(buffered, format="PNG")`: an abstract, byte-valued
PNG serialisation of the image (the encoder itself is external PIL code). -/
def pngEncode (img : Img) : List Nat :=
  pngSig ++ encNat4 img.width ++ encNat4 img.height ++ encChars img.mode
    ++ encChars img.background ++ img.raw.map (fun b => b % 256)
    ++ (img.ops.map DrawOp.enc).flatten

/-- Serialisation used for a non-`.png` filename suffix. -/
def rawEncode (img : Img) : List Nat :=
  encNat4 img.width ++ encNat4 img.height ++ img.raw.map (fun b => b % 256)
    ++ (img.ops.map DrawOp.enc).flatten

/-- Model of `pil_image.save(path)`: PIL dispatches the output format on the
filename extension. -/
def encodeForPath (filename : List Char) (img : Img) : List Nat :=
  if (str ".png").isSuffixOf filename then pngEncode img else rawEncode img

/-- Filesystem state: the directories that exist and the files written. -/
structure FS where
  dirs : List (List Char)
  files : List (List Char × List Nat)
deriving DecidableEq

/-- `os.path.flatten(os.getcwd(), 'static', 'images')`, kept cwd-relative. -/
def outputDir : List Char := str "static/images"

/-- `os.makedirs(d, exist_ok=True)`. -/
def mkdirs (fs : FS) (d : List Char) : FS :=
  if d ∈ fs.dirs then fs else ⟨d :: fs.dirs, fs.files⟩

/-- Writing a file. -/
def writeFile (fs : FS) (path : List Char) (bytes : List Nat) : FS :=
  ⟨fs.dirs, (path, bytes) :: fs.files⟩

/-- `os.path.flatten(d, f)`. -/
def joinPath (d f : List Char) : List Char := d ++ '/' :: f

/-! ## `local_fallback.py` -/

/-- The specialty → (background, text, accent) colour table of
`generate_pro_fallback` (`local_fallback.py` lines 8-16). -/
def colors : List (List Char × (List Char × List Char × List Char)) :=
  [(str "cardiology", (str "#2c5282", str "#ffffff", str "#e53e3e")),
   (str "oncology", (str "#553c9a", str "#ffffff", str "#9f7aea")),
   (str "neurology", (str "#1a365d", str "#ffffff", str "#4299e1")),
   (str "primary_care", (str "#2d3748", str "#ffffff", str "#48bb78")),
   (str "pediatrics", (str "#2b6cb0", str "#ffffff", str "#f6ad55")),
   (str "surgery", (str "#1a202c", str "#ffffff", str "#38b2ac")),
   (str "general", (str "#2d3748", str "#ffffff", str "#4299e1"))]

/-- `colors.get(specialty.lower(), colors["general"])`. -/
def fallback_colors (specialty : List Char) : List Char × List Char × List Char :=
  pyGet colors (pyLower specialty) (pyGet colors (str "general") ([], [], []))

/-- The body of `generate_pro_fallback` past the raising hex parse: background
fill, fonts, borders, accent bar, wrapped and centred title, specialty
subtitle, tagline and the four corner triangles, in source order
(`local_fallback.py` lines 20-88). -/
def fallback_render (survey_name specialty : List Char) (arialAvailable : Bool) : Img :=
  let bta := fallback_colors specialty
  let bg_color := bta.1
  let text_color := bta.2.1
  let accent_color := bta.2.2
  let img0 : Img := ⟨1280, 720, str "RGB", bg_color, [], []⟩
  let title_font := if arialAvailable then PyFont.truetype 56 else PyFont.bitmap
  let subtitle_font := if arialAvailable then PyFont.truetype 36 else PyFont.bitmap
  let small_font := if arialAvailable then PyFont.truetype 24 else PyFont.bitmap
  let wrapped_title := pyFill35 survey_name
  let title_lines := pySplitNl wrapped_title
  let center_x : Int := 640
  let title_start_y : Int := if title_lines.length = 1 then 250 else 220
  let titleOps := title_lines.enum.map (fun p =>
    DrawOp.drawText (center_x - ((textWidthPx title_font p.2 / 2 : Nat) : Int))
      (title_start_y + (p.1 : Int) * 70) p.2 text_color title_font)
  let specialty_text := pyTitle specialty ++ str " Research Survey"
  let subtitle_y : Int := title_start_y + (title_lines.length : Int) * 70 + 40
  let tagline := str "Healthcare Professional Research Initiative"
  { img0 with ops :=
    [DrawOp.rectangle 40 40 1240 680 (some accent_color) none 4,
     DrawOp.rectangle 60 60 1220 660 (some text_color) none 2,
     DrawOp.rectangle 80 150 1200 160 none (some accent_color) 0]
    ++ titleOps
    ++ [DrawOp.drawText (center_x - ((textWidthPx subtitle_font specialty_text / 2 : Nat) : Int))
          subtitle_y specialty_text accent_color subtitle_font,
        DrawOp.drawText (center_x - ((textWidthPx small_font tagline / 2 : Nat) : Int))
          580 tagline text_color small_font,
        DrawOp.polygon [(80, 80), (120, 80), (100, 100)] accent_color,
        DrawOp.polygon [(1160, 80), (1200, 80), (1200, 120)] accent_color,
        DrawOp.polygon [(80, 640), (80, 680), (120, 680)] accent_color,
        DrawOp.polygon [(1200, 600), (1200, 640), (1160, 640)] accent_color] }

/-- `generate_pro_fallback(survey_name, specialty)` of `local_fallback.py`.
`arialAvailable` models whether `ImageFont.truetype("arial.ttf", _)` succeeds;
an `Except.error` marks the one place the Python code could raise: the
gradient loop (lines 40-42) re-parses the three hex byte slices of the
background colour on each of its 36 iterations and computes an unused overlay
colour, so its only observable effect is the exception when parsing fails. -/
def generate_pro_fallback (survey_name specialty : List Char) (arialAvailable : Bool) :
    Except (List Char) Img :=
  match hexTriple (fallback_colors specialty).1 with
  | none => Except.error (str "invalid literal for int() with base 16")
  | some _ => Except.ok (fallback_render survey_name specialty arialAvailable)

/-! ## Environment: the external collaborators of `image_generator.py` -/

/-- A Python exception value: `ValueError` (raised by the prompt builder, the
spec's `InvalidConfiguration`) or any service/API error (the spec's
`RemoteServiceError`). -/
inductive PyErr where
  | valueError (msg : List Char)
  | apiError (msg : List Char)
deriving DecidableEq

/-- Python `str(e)` on an exception. -/
def pyStr : PyErr → List Char
  | .valueError m => m
  | .apiError m => m

/-- One part of a Gemini response: `part.text` and `part.inline_data.data`. -/
structure Part where
  text : Option (List Char)
  inline_data : Option (List Nat)
deriving DecidableEq

/-- The external collaborators: client-library availability, the two remote
service calls (as functions of the prompt sent), PIL image decoding
(`PILImage.open`), font availability, the outcome of `pil_image.save` to a
path, and the formatted timestamp `datetime.datetime.now().strftime(...)`. -/
structure Env where
  gemini_available : Bool
  remote_text : List Char → Except PyErr (List Char)
  remote_image : List Char → Except PyErr (List Part)
  decode : List Nat → Except PyErr Img
  arialAvailable : Bool
  save_result : Option PyErr
  now : List Char

/-! ## `image_generator.py`: the image prompt builder -/

/-- `specialty_elements` (`image_generator.py` lines 64-76). -/
def specialty_elements : List (List Char × List Char) :=
  [(str "cardiology", str "subtle heart imagery, ECG patterns, stethoscope elements, cardiovascular icons"),
   (str "oncology", str "cellular imagery, research lab elements, microscope motifs, hope and healing themes"),
   (str "primary_care", str "diverse patient care imagery, family medicine elements, community health themes"),
   (str "neurology", str "brain imagery, neural networks, neurological examination tools"),
   (str "pediatrics", str "child-friendly colors, pediatric care elements, family-centered themes"),
   (str "psychiatry", str "mental health awareness imagery, brain and mind connection themes"),
   (str "emergency_medicine", str "urgent care elements, emergency room themes, critical care imagery"),
   (str "surgery", str "surgical precision imagery, OR themes, medical precision elements"),
   (str "radiology", str "imaging equipment, scan imagery, diagnostic themes"),
   (str "pharmacy", str "pharmaceutical elements, medication management themes"),
   (str "general", str "universal medical symbols, healthcare collaboration imagery, medical professionalism")]

/-- `specialty_elements.get(medical_specialty.lower(), specialty_elements["general"])`. -/
def specialty_visual (medical_specialty : List Char) : List Char :=
  pyGet specialty_elements (pyLower medical_specialty) (pyGet specialty_elements (str "general") [])

/-- `style_instructions` (`image_generator.py` lines 82-119). -/
def style_instructions : List (List Char × List Char) :=
  [(str "professional", str "
PROFESSIONAL STYLE:
- Clean, corporate medical aesthetic
- Subtle gradients and professional typography
- Medical professionals in business attire
- Hospital or clinic environment backgrounds
- Sophisticated color palette with medical blues and whites
- Icons and symbols should be minimal and elegant
"),
   (str "infographic", str "
INFOGRAPHIC STYLE:
- Data visualization elements (charts, graphs, statistics)
- Clear information hierarchy
- Iconography representing survey benefits
- Step-by-step visual flow
- Bold, readable typography
- Engaging data presentation elements
"),
   (str "medical_illustration", str "
MEDICAL ILLUSTRATION STYLE:
- Detailed medical diagrams and anatomical elements
- Scientific accuracy in medical representations
- Educational poster aesthetic
- Medical textbook illustration quality
- Precise, technical visual elements
- Professional medical publication style
"),
   (str "clean_modern", str "
CLEAN MODERN STYLE:
- Minimalist design with lots of white space
- Modern typography and clean lines
- Subtle shadows and depth
- Contemporary medical technology elements
- Fresh, approachable color palette
- Modern healthcare facility aesthetics
")]

/-- `construct_image_prompt` (`image_generator.py` lines 33-161). -/
def construct_image_prompt (survey_name medical_specialty tone : List Char)
    (image_style : List Char := str "professional") (include_text : Bool := true) : List Char :=
  let base1 := str "
Create a high-quality, professional medical survey campaign image for healthcare professionals.

CAMPAIGN DETAILS:
- Survey Focus: " ++ survey_name ++ str "
- Target Specialty: " ++ medical_specialty ++ str "
- Visual Tone: " ++ tone ++ str "
- Style: " ++ image_style ++ str "

VISUAL REQUIREMENTS:
- Dimensions: 16:9 landscape format, suitable for email headers and web banners
- Resolution: High-resolution, crisp and clear
- Color scheme: Professional medical colors (blues, teals, whites, subtle accent colors)
- Professional aesthetic suitable for medical professionals
- Clean, uncluttered design with plenty of white space
"
  let p1 := base1 ++ str "
- Specialty Elements: Incorporate " ++ specialty_visual medical_specialty
  let p2 := p1 ++ pyGet style_instructions (pyLower image_style)
    (pyGet style_instructions (str "professional") [])
  let p3 :=
    if include_text then p2 ++ str "

TEXT OVERLAY REQUIREMENTS:
- Main headline: \"" ++ survey_name ++ str "\" (prominent, readable typography)
- Subtitle: \"Healthcare Professional Survey\" or \"Medical Research Study\"
- Call-to-action element: \"Share Your Expertise\" or \"Join the Research\"
- Text should be easily readable against the background
- Use professional, medical-appropriate fonts
- Ensure text contrast meets accessibility standards
"
    else p2 ++ str "
- Create image without text overlay (background/template only)"
  let p4 := p3 ++ str "

COMPOSITION GUIDELINES:
- Center-weighted composition with clear focal point
- Balance between imagery and negative space
- Professional lighting and color temperature
- Avoid overly complex or busy designs
- Ensure scalability from large banners to small email thumbnails
- Create a sense of trust, expertise, and medical authority
- Make it appealing to busy healthcare professionals
- Include subtle elements that suggest collaboration and knowledge sharing

TECHNICAL SPECIFICATIONS:
- High contrast for readability
- Professional color grading
- Sharp, crisp details
- Suitable for both digital and print applications
- Optimized for professional medical communications

Create this medical survey campaign image now with careful attention to professional medical aesthetics and clear visual communication.
"
  pyStrip p4

/-! ## `image_generator.py`: the orchestrator -/

/-- `safe_name`: `"".join(c for c in survey_name if c.isalnum() or c in
(' ', '-', '_')).rstrip()`. -/
def safe_name (survey_name : List Char) : List Char :=
  pyRstrip (survey_name.filter (fun c => c.isAlphanum || c == ' ' || c == '-' || c == '_'))

/-- Python `s.replace(' ', '_')`. -/
def pyReplaceSpaceUnderscore (s : List Char) : List Char :=
  s.map (fun c => if c = ' ' then '_' else c)

/-- The sanitised filename stem: `safe_name.replace(' ', '_')`. -/
def sanitizeStem (survey_name : List Char) : List Char :=
  pyReplaceSpaceUnderscore (safe_name survey_name)

/-- The 4-tuple `(pil_image, image_filename, image_base64, image_message)`
returned by the image acquisition functions. -/
structure GenResult where
  pil : Option Img
  filename : Option (List Char)
  b64 : Option (List Char)
  message : List Char
deriving DecidableEq

/-- Instrumentation: the prompts sent to the remote image service and the
number of invocations of the local fallback renderer. -/
structure ImgLog where
  image_calls : List (List Char)
  fallback_calls : Nat
deriving DecidableEq

/-- The filename used by `_try_new_gemini_api`: the caller-supplied name or
`f"survey_image_{safe_name.replace(' ', '_')}_{timestamp}.png"`. -/
def survey_image_filename (env : Env) (survey_name : List Char)
    (save_filename : Option (List Char)) : List Char :=
  match save_filename with
  | some f => f
  | none => str "survey_image_" ++ sanitizeStem survey_name ++ str "_" ++ env.now ++ str ".png"

/-- The filename used by `_generate_fallback_image`: the caller-supplied name
or `f"fallback_{safe_name.replace(' ', '_')}_{timestamp}.png"`. -/
def fallback_image_filename (env : Env) (survey_name : List Char)
    (save_filename : Option (List Char)) : List Char :=
  match save_filename with
  | some f => f
  | none => str "fallback_" ++ sanitizeStem survey_name ++ str "_" ++ env.now ++ str ".png"

/-- The `for part in response.candidates[0].content.parts` loop of
`_try_new_gemini_api` (`image_generator.py` lines 202-234), carrying the
accumulated `image_message`; `Except.error` marks an exception escaping to
the surrounding `try`. -/
def gemini_loop (env : Env) (survey_name : List Char) (save_filename : Option (List Char))
    (image_message : List Char) (fs : FS) :
    List Part → Except (PyErr × FS) (GenResult × FS)
  | [] => .ok (⟨none, none, none, str "No image generated by Gemini API"⟩, fs)
  | part :: rest =>
    match part.text with
    | some t => gemini_loop env survey_name save_filename t fs rest
    | none =>
      match part.inline_data with
      | none => gemini_loop env survey_name save_filename image_message fs rest
      | some data =>
        match env.decode data with
        | .error e => .error (e, fs)
        | .ok pil_image =>
          let image_filename := survey_image_filename env survey_name save_filename
          let fs1 := mkdirs fs outputDir
          match env.save_result with
          | some e => .error (e, fs1)
          | none =>
            let fs2 := writeFile fs1 (joinPath outputDir image_filename)
              (encodeForPath image_filename pil_image)
            let image_base64 := b64encode (pngEncode pil_image)
            .ok (⟨some pil_image, some image_filename, some image_base64, image_message⟩, fs2)

/-- `_try_new_gemini_api` (`image_generator.py` lines 186-238). -/
def try_new_gemini_api (env : Env) (prompt survey_name : List Char)
    (save_filename : Option (List Char)) (fs : FS) : GenResult × FS :=
  match env.remote_image prompt with
  | .error e => (⟨none, none, none, str "Gemini API error: " ++ pyStr e⟩, fs)
  | .ok parts =>
    match gemini_loop env survey_name save_filename
        (str "AI-generated image created successfully") fs parts with
    | .error (e, fs1) => (⟨none, none, none, str "Gemini API error: " ++ pyStr e⟩, fs1)
    | .ok r => r

/-- `_generate_fallback_image` (`image_generator.py` lines 241-280). -/
def generate_fallback_image (env : Env) (survey_name medical_specialty : List Char)
    (save_filename : Option (List Char)) (fs : FS) : GenResult × FS :=
  match generate_pro_fallback survey_name medical_specialty env.arialAvailable with
  | .error e => (⟨none, none, none, e⟩, fs)
  | .ok pil_image =>
    let image_filename := fallback_image_filename env survey_name save_filename
    let fs1 := mkdirs fs outputDir
    match env.save_result with
    | some e => (⟨none, none, none, pyStr e⟩, fs1)
    | none =>
      let fs2 := writeFile fs1 (joinPath outputDir image_filename)
        (encodeForPath image_filename pil_image)
      let image_base64 := b64encode (pngEncode pil_image)
      (⟨some pil_image, some image_filename, some image_base64,
        str "Professional fallback image generated successfully."⟩, fs2)

/-- `generate_survey_image` (`image_generator.py` lines 163-183), with the
Python default arguments, also returning the final filesystem state and the
call log. -/
def generate_survey_image (env : Env) (fs : FS) (survey_name : List Char)
    (medical_specialty : List Char := str "general")
    (tone : List Char := str "professional")
    (image_style : List Char := str "professional")
    (include_text : Bool := true)
    (save_filename : Option (List Char) := none) : GenResult × FS × ImgLog :=
  let prompt := construct_image_prompt survey_name medical_specialty tone image_style include_text
  if env.gemini_available then
    let tr := try_new_gemini_api env prompt survey_name save_filename fs
    if tr.1.pil.isSome then (tr.1, tr.2, ⟨[prompt], 0⟩)
    else
      let fb := generate_fallback_image env survey_name medical_specialty save_filename tr.2
      (fb.1, fb.2, ⟨[prompt], 1⟩)
  else
    let fb := generate_fallback_image env survey_name medical_specialty save_filename fs
    (fb.1, fb.2, ⟨[], 1⟩)

/-! ## `text_generation.py` -/

/-- `tone_instructions` (`text_generation.py` lines 34-70). -/
def tone_instructions : List (List Char × List Char) :=
  [(str "formal", str "
TONE GUIDELINES - FORMAL:
- Use professional, respectful language appropriate for medical colleagues
- Maintain clinical terminology where relevant
- Structure with clear, organized paragraphs
- Use formal salutations and closings
- Emphasize professional value and scientific merit
- Reference peer collaboration and medical community contribution
"),
   (str "casual", str "
TONE GUIDELINES - CASUAL:
- Use friendly, approachable language while maintaining professionalism
- Include conversational elements (\"We\x27d love to hear from you\")
- Keep sentences shorter and more direct
- Use inclusive language (\"we\", \"together\")
- Balance friendliness with respect for expertise
"),
   (str "educational", str "
TONE GUIDELINES - EDUCATIONAL:
- Position survey as a learning and knowledge-sharing opportunity
- Explain broader context and importance of research topic
- Highlight contribution to medical advancement
- Include relevant background on subject matter
- Emphasize educational value for participants
- Use evidence-based language
"),
   (str "compelling", str "
TONE GUIDELINES - COMPELLING:
- Create urgency without being pushy
- Emphasize critical importance of their perspective
- Highlight impact on patient care/medical practice
- Use action-oriented language
- Stress limited opportunity and exclusivity
- Include credibility indicators
")]

/-- The remainder of the prompt after the survey-details block: the tone
block looked up with `"formal"` fallback, the fixed requirements text, and the
final `.strip()` (`text_generation.py` lines 72-108). -/
def construct_prompt_tail (base_prompt tone : List Char) : List Char :=
  pyStrip (base_prompt
    ++ pyGet tone_instructions (pyLower tone) (pyGet tone_instructions (str "formal") [])
    ++ str "
EMAIL REQUIREMENTS:
1. SUBJECT LINE: Engaging, mentions survey topic and compensation
2. OPENING: Professional greeting acknowledging expertise
3. PURPOSE: Clear explanation of survey objective and relevance
4. VALUE: Why participation matters (beyond compensation)
5. LOGISTICS: Duration (\x7bloi\x7d mins), compensation ($\x7bcompensation\x7d), participation method
6. CREDIBILITY: Establish trust and legitimacy
7. CALL-TO-ACTION: Clear next steps to participate
8. CLOSING: Professional sign-off with contact info

CONTENT SPECIFICATIONS:
- Length: 150-250 words
- Include survey name naturally
- Address HCP concerns (time, relevance, legitimacy)
- Use appropriate medical terminology
- Mention compensation naturally
- Include exclusivity and professional recognition
- Ensure confidentiality/anonymity is mentioned

AVOID:
- Generic language
- Aggressive sales tactics
- Minimizing time constraints
- Unclear participation instructions

OUTPUT FORMAT:
Subject Line: [Subject]
Email Body:
[Body]
Signature:
[Signature]
")

/-- The survey-details block of the email prompt (the opening f-string of
`construct_prompt`, `text_generation.py` lines 19-27). -/
def email_base_prompt (survey_name compensation loi tone : List Char) : List Char :=
  str "
You are an expert medical communications specialist with 15+ years of experience crafting compelling survey invitations for Healthcare Professionals (HCPs). You understand their challenges, time constraints, and motivations.

SURVEY DETAILS:
- Survey Name: " ++ survey_name ++ str "
- Compensation: $" ++ compensation ++ str " USD
- Duration: " ++ loi ++ str " minutes
- Target Tone: " ++ tone ++ str "
"

/-- `construct_prompt` (`text_generation.py` lines 15-108); `Except.error`
is the `ValueError` raised for the educational tone without educational info. -/
def construct_prompt (survey_name compensation loi tone : List Char)
    (educational_info : Option (List Char) := none) : Except PyErr (List Char) :=
  let base1 := email_base_prompt survey_name compensation loi tone
  if pyLower tone = str "educational" then
    match educational_info with
    | none => .error (.valueError (str "Educational tone selected, but no educational info provided."))
    | some info =>
      if info.isEmpty then
        .error (.valueError (str "Educational tone selected, but no educational info provided."))
      else
        .ok (construct_prompt_tail
          (base1 ++ str "- Educational Focus: " ++ info ++ str "
") tone)
  else
    .ok (construct_prompt_tail base1 tone)

/-- `generate_email` (`text_generation.py` lines 110-119), also returning the
list of prompts actually sent to the remote text service. -/
def generate_email (env : Env) (survey_name compensation loi tone : List Char)
    (educational_info : Option (List Char) := none) :
    (Option (List Char) × Option (List Char)) × List (List Char) :=
  match construct_prompt survey_name compensation loi tone educational_info with
  | .error e => ((none, some (str "Error generating email: " ++ pyStr e)), [])
  | .ok prompt =>
    match env.remote_text prompt with
    | .ok t => ((some t, none), [prompt])
    | .error e => ((none, some (str "Error generating email: " ++ pyStr e)), [prompt])

/-! ## `app.py` -/

/-- The submitted form fields (`request.form.get(...)` results). -/
structure Form where
  survey_name : Option (List Char)
  medical_specialty : Option (List Char)
  tone : Option (List Char)
  image_style : Option (List Char)
  compensation : Option (List Char)
  loi : Option (List Char)
  educational_info : Option (List Char)
  include_text : Option (List Char)
deriving DecidableEq

/-- Python truthiness of an optional string (`None` and `""` are falsy). -/
def pyTruthy : Option (List Char) → Bool
  | none => false
  | some s => !s.isEmpty

/-- The image-generation invocation made by the `/generate` endpoint
(`app.py` lines 47-50): `generate_survey_image(survey_name=survey_name,
medical_specialty=medical_specialty)` with only those two arguments; it runs
only after validation has ensured `survey_name` is present. -/
def handler_image_step (env : Env) (fs : FS) (form : Form) : GenResult × FS × ImgLog :=
  generate_survey_image env fs (form.survey_name.getD [])
    (form.medical_specialty.getD (str "general"))

/-- The JSON response of the `/generate` endpoint. -/
inductive HandlerResponse where
  | failure (errors : List (List Char))
  | success (email_content image_base64 image_filename image_description download_url : List Char)
deriving DecidableEq

/-- The `/generate` endpoint handler (`app.py` lines 15-62). -/
def generate_handler (env : Env) (fs : FS) (form : Form) : HandlerResponse :=
  let survey_name := form.survey_name
  let tone := form.tone.getD (str "professional")
  let errors :=
    (if !pyTruthy survey_name || (pyStrip (survey_name.getD [])).length < 3 then
      [str "Survey name is required and must be at least 3 characters."] else [])
    ++ (if !pyTruthy form.compensation || !pyIsDigit (form.compensation.getD [])
          || decide (intOfDigits (form.compensation.getD []) < 0) then
      [str "Compensation must be a non-negative number."] else [])
    ++ (if !pyTruthy form.loi || !pyIsDigit (form.loi.getD [])
          || decide (intOfDigits (form.loi.getD []) < 1) then
      [str "Length of interview must be a positive number."] else [])
    ++ (if pyLower tone == str "educational" && !pyTruthy form.educational_info then
      [str "Educational tone requires educational information."] else [])
  if !errors.isEmpty then .failure errors
  else
    match generate_email env (survey_name.getD []) (form.compensation.getD [])
        (form.loi.getD []) tone form.educational_info with
    | ((_, some email_error), _) => .failure [email_error]
    | ((email_content, none), _) =>
      let st := handler_image_step env fs form
      match st.1.filename with
      | none => .failure [st.1.message]
      | some image_filename =>
        if image_filename.isEmpty then .failure [st.1.message]
        else .success (email_content.getD []) (st.1.b64.getD []) image_filename
          st.1.message (str "/download/" ++ image_filename)

/-! ## Characterisations used in the claim statements -/

/-- The data of the first response part classified as image data by the loop
(`part.text is None` and `part.inline_data is not None`). -/
def firstImageData : List Part → Option (List Nat)
  | [] => none
  | p :: rest =>
    match p.text with
    | some _ => firstImageData rest
    | none =>
      match p.inline_data with
      | some d => some d
      | none => firstImageData rest

/-- The message the loop holds when it reaches the first image part (the last
text part seen before it), or when it falls off the end. -/
def successMessage (dflt : List Char) : List Part → List Char
  | [] => dflt
  | p :: rest =>
    match p.text with
    | some t => successMessage t rest
    | none =>
      match p.inline_data with
      | some _ => dflt
      | none => successMessage dflt rest

/-- The loop fails: no part is classified as image data, or decoding the
first image part raises. -/
def loopFails (env : Env) : List Part → Bool
  | [] => true
  | p :: rest =>
    match p.text with
    | some _ => loopFails env rest
    | none =>
      match p.inline_data with
      | none => loopFails env rest
      | some d =>
        match env.decode d with
        | .error _ => true
        | .ok _ => false

/-- The remote generation attempt fails: network or API error on the call
itself, no image part in the response, or decode failure. -/
def remoteFailure (env : Env) (prompt : List Char) : Bool :=
  match env.remote_image prompt with
  | .error _ => true
  | .ok parts => loopFails env parts

/-- The `"formal"` tone-guideline block of `tone_instructions`. -/
def formal_tone_block : List Char := pyGet tone_instructions (str "formal") []

/-! ## Concrete environments and data for witnesses and counterexamples -/

/-- A baseline environment: no Gemini client available, both remote services
failing, decoding failing, no scalable font, saving succeeding. -/
def env0 : Env :=
  { gemini_available := false
    remote_text := fun _ => Except.error (PyErr.apiError (str "service unavailable"))
    remote_image := fun _ => Except.error (PyErr.apiError (str "service unavailable"))
    decode := fun _ => Except.error (PyErr.apiError (str "cannot identify image file"))
    arialAvailable := false
    save_result := none
    now := str "20250101_120000" }

/-- `env0` with the Gemini client available (the remote image call raises). -/
def envC1 : Env := { env0 with gemini_available := true }

/-- A small decoded remote image. -/
def imgA : Img := ⟨16, 9, str "RGB", str "bg", [7, 8], []⟩

/-- A response whose first part is image data and whose second is text. -/
def partsImgThenText : List Part :=
  [⟨none, some [7]⟩, ⟨some (str "A detailed description"), none⟩]

/-- A response whose first part is text and whose second is image data. -/
def partsTextThenImg : List Part :=
  [⟨some (str "An earlier description"), none⟩, ⟨none, some [7]⟩]

/-- Environment returning `partsImgThenText` and decoding to `imgA`. -/
def envC5 : Env :=
  { env0 with gemini_available := true
              remote_image := fun _ => Except.ok partsImgThenText
              decode := fun _ => Except.ok imgA }

/-- Environment returning `partsTextThenImg` and decoding to `imgA`. -/
def envC5w : Env :=
  { env0 with gemini_available := true
              remote_image := fun _ => Except.ok partsTextThenImg
              decode := fun _ => Except.ok imgA }

/-- An empty filesystem. -/
def fs0 : FS := ⟨[], []⟩

/-- A form for the C10 witness. -/
def formA : Form :=
  ⟨some (str "Heart Health Pulse"), some (str "cardiology"), some (str "formal"),
   some (str "professional"), some (str "50"), some (str "15"), none, some (str "on")⟩

/-- `formA` with different tone, image style and text-overlay fields. -/
def formB : Form :=
  ⟨some (str "Heart Health Pulse"), some (str "cardiology"), some (str "casual"),
   some (str "infographic"), some (str "50"), some (str "15"), none, none⟩

/-! ## Generic lemmas -/

/-- A `dict.get` with an absent key returns the default. -/
theorem pyGet_not_key {α : Type} (tbl : List (List Char × α)) (k : List Char) (d : α)
    (h : k ∉ tbl.map Prod.fst) : pyGet tbl k d = d := by
  unfold pyGet
  have hf : tbl.find? (fun e => e.1 == k) = none := by
    rw [List.find?_eq_none]
    intro e he
    simp only [beq_iff_eq]
    intro hek
    exact h (List.mem_map.mpr ⟨e, he, hek⟩)
  rw [hf]

/-- `dropWhile` is the identity when no element satisfies the predicate. -/
theorem dropWhile_eq_self_of (p : Char → Bool) (l : List Char)
    (h : ∀ c ∈ l, p c = false) : l.dropWhile p = l := by
  cases l with
  | nil => rfl
  | cons a t => rw [List.dropWhile_cons]; simp [h a (List.mem_cons_self a t)]

/-- `rstrip` is the identity on whitespace-free strings. -/
theorem pyRstrip_eq_self (l : List Char) (h : ∀ c ∈ l, pyIsSpace c = false) :
    pyRstrip l = l := by
  unfold pyRstrip
  rw [dropWhile_eq_self_of _ _ (fun c hc => h c (List.mem_reverse.mp hc)), List.reverse_reverse]

/-- `rstrip` keeps a subset of the characters. -/
theorem pyRstrip_subset (l : List Char) : pyRstrip l ⊆ l := by
  intro c hc
  unfold pyRstrip at hc
  rw [List.mem_reverse] at hc
  exact List.mem_reverse.mp ((List.dropWhile_sublist _).subset hc)

/-- ASCII whitespace characters are not alphanumeric. -/
theorem pyIsSpace_eq_false_of_alnum (c : Char) (h : c.isAlphanum = true) :
    pyIsSpace c = false := by
  cases hs : pyIsSpace c with
  | false => rfl
  | true =>
    simp only [pyIsSpace, Bool.or_eq_true, beq_iff_eq] at hs
    rcases hs with ((((rfl | rfl) | rfl) | rfl) | rfl) | rfl <;> exact absurd h (by decide)

/-- `map` is the identity when the function fixes every element. -/
theorem map_id_of (f : Char → Char) (l : List Char) (h : ∀ c ∈ l, f c = c) :
    l.map f = l := by
  induction l with
  | nil => rfl
  | cons a t ih => simp only [List.map_cons, h a (by simp), ih (fun c hc => h c (by simp [hc]))]

/-- `lstrip` distributes over an append whose left part has a non-space. -/
theorem pyLstrip_append_of (a b : List Char) (h : ∃ c ∈ a, pyIsSpace c = false) :
    pyLstrip (a ++ b) = pyLstrip a ++ b := by
  induction a with
  | nil => obtain ⟨c, hc, _⟩ := h; exact absurd hc (List.not_mem_nil c)
  | cons x t ih =>
    by_cases hx : pyIsSpace x = true
    · have h' : ∃ c ∈ t, pyIsSpace c = false := by
        obtain ⟨c, hc, hcs⟩ := h
        rcases List.mem_cons.mp hc with rfl | hct
        · rw [hx] at hcs; cases hcs
        · exact ⟨c, hct, hcs⟩
      unfold pyLstrip
      rw [List.cons_append, List.dropWhile_cons, List.dropWhile_cons, if_pos hx, if_pos hx]
      exact ih h'
    · unfold pyLstrip
      rw [List.cons_append, List.dropWhile_cons, List.dropWhile_cons, if_neg hx, if_neg hx,
        List.cons_append]

/-- `rstrip` distributes over an append whose right part has a non-space. -/
theorem pyRstrip_append_of (a b : List Char) (h : ∃ c ∈ b, pyIsSpace c = false) :
    pyRstrip (a ++ b) = a ++ pyRstrip b := by
  have h' : ∃ c ∈ b.reverse, pyIsSpace c = false := by
    obtain ⟨c, hc, hs⟩ := h
    exact ⟨c, List.mem_reverse.mpr hc, hs⟩
  show ((a ++ b).reverse.dropWhile pyIsSpace).reverse = a ++ (b.reverse.dropWhile pyIsSpace).reverse
  rw [List.reverse_append]
  have hl := pyLstrip_append_of b.reverse a.reverse h'
  unfold pyLstrip at hl
  rw [hl, List.reverse_append, List.reverse_reverse]

/-- `strip` of a three-part append with non-space ends keeps the middle intact. -/
theorem pyStrip_middle (a m b : List Char)
    (ha : ∃ c ∈ a, pyIsSpace c = false) (hb : ∃ c ∈ b, pyIsSpace c = false) :
    pyStrip (a ++ m ++ b) = pyLstrip a ++ m ++ pyRstrip b := by
  obtain ⟨c, hc, hcs⟩ := ha
  unfold pyStrip
  rw [pyLstrip_append_of (a ++ m) b ⟨c, List.mem_append_left m hc, hcs⟩,
    pyLstrip_append_of a m ⟨c, hc, hcs⟩,
    pyRstrip_append_of (pyLstrip a ++ m) b hb]

/-- Every character of a sanitised stem is alphanumeric, `'-'` or `'_'`;
in particular it is no space character. -/
theorem sanitize_chars (s : List Char) :
    ∀ c ∈ sanitizeStem s, (c.isAlphanum || c == '-' || c == '_') = true
      ∧ c ≠ ' ' ∧ pyIsSpace c = false := by
  intro c hc
  unfold sanitizeStem pyReplaceSpaceUnderscore at hc
  rw [List.mem_map] at hc
  obtain ⟨c', hc', rfl⟩ := hc
  have hfil : c' ∈ s.filter (fun c => c.isAlphanum || c == ' ' || c == '-' || c == '_') :=
    pyRstrip_subset _ hc'
  have hkeep := (List.mem_filter.mp hfil).2
  by_cases hsp : c' = ' '
  · subst hsp
    refine ⟨by decide, by decide, by decide⟩
  · rw [if_neg hsp]
    simp only [Bool.or_eq_true, beq_iff_eq] at hkeep
    rcases hkeep with ((halnum | hspace) | hdash) | hund
    · exact ⟨by simp [halnum], hsp, pyIsSpace_eq_false_of_alnum _ halnum⟩
    · exact absurd hspace hsp
    · subst hdash; exact ⟨by decide, by decide, by decide⟩
    · subst hund; exact ⟨by decide, by decide, by decide⟩

/-! ## Claim theorems -/

/-- C7: filename sanitisation (keep alphanumerics, spaces, hyphens,
underscores; strip trailing whitespace; replace spaces with underscores) maps
`"Q3 Cardiology Check-In!"` to `"Q3_Cardiology_Check-In"` and is idempotent
on every input string. -/
theorem C7_sanitize_idempotent (s : List Char) :
    sanitizeStem (str "Q3 Cardiology Check-In!") = str "Q3_Cardiology_Check-In"
    ∧ sanitizeStem (sanitizeStem s) = sanitizeStem s := by
  refine ⟨by decide, ?_⟩
  have hch := sanitize_chars s
  have hfil : (sanitizeStem s).filter
      (fun c => c.isAlphanum || c == ' ' || c == '-' || c == '_') = sanitizeStem s := by
    rw [List.filter_eq_self]
    intro c hc
    have h1 := (hch c hc).1
    simp only [Bool.or_eq_true] at h1 ⊢
    rcases h1 with (h | h) | h
    · exact Or.inl (Or.inl (Or.inl h))
    · exact Or.inl (Or.inr h)
    · exact Or.inr h
  have hrs : pyRstrip (sanitizeStem s) = sanitizeStem s :=
    pyRstrip_eq_self _ (fun c hc => (hch c hc).2.2)
  have hmap : (sanitizeStem s).map (fun c => if c = ' ' then '_' else c) = sanitizeStem s :=
    map_id_of _ _ (fun c hc => if_neg (hch c hc).2.1)
  show ((pyRstrip ((sanitizeStem s).filter
      (fun c => c.isAlphanum || c == ' ' || c == '-' || c == '_'))).map
      (fun c => if c = ' ' then '_' else c)) = sanitizeStem s
  rw [hfil, hrs]
  exact hmap

/-- C6: every specialty string whose lower-cased form is in neither enumerated
table resolves to the "general" visual-elements phrase in the image prompt
builder and to the "general" colour triple in the fallback renderer, and both
resolutions agree with the resolution of the canonical key `"general"`. -/
theorem C6_unrecognized_specialty_general_default (sp : List Char)
    (h : pyLower sp ∉ specialty_elements.map Prod.fst) :
    specialty_visual sp
      = str "universal medical symbols, healthcare collaboration imagery, medical professionalism"
    ∧ fallback_colors sp = (str "#2d3748", str "#ffffff", str "#4299e1")
    ∧ specialty_visual sp = specialty_visual (str "general")
    ∧ fallback_colors sp = fallback_colors (str "general") := by
  have hc : pyLower sp ∉ colors.map Prod.fst := by
    intro hm
    have sub : ∀ k ∈ colors.map Prod.fst, k ∈ specialty_elements.map Prod.fst := by decide
    exact h (sub _ hm)
  have h1 : specialty_visual sp = pyGet specialty_elements (str "general") [] := by
    unfold specialty_visual
    exact pyGet_not_key _ _ _ h
  have h2 : fallback_colors sp = pyGet colors (str "general") ([], [], []) := by
    unfold fallback_colors
    exact pyGet_not_key _ _ _ hc
  refine ⟨?_, ?_, ?_, ?_⟩
  · rw [h1]; decide
  · rw [h2]; decide
  · rw [h1]; decide
  · rw [h2]; decide

/-- C6 witness: the unrecognised specialty `"dermatology"`. -/
theorem C6_witness :
    pyLower (str "dermatology") ∉ specialty_elements.map Prod.fst
    ∧ (specialty_visual (str "dermatology")
        = str "universal medical symbols, healthcare collaboration imagery, medical professionalism"
      ∧ fallback_colors (str "dermatology") = (str "#2d3748", str "#ffffff", str "#4299e1")
      ∧ specialty_visual (str "dermatology") = specialty_visual (str "general")
      ∧ fallback_colors (str "dermatology") = fallback_colors (str "general")) :=
  ⟨by decide, C6_unrecognized_specialty_general_default _ (by decide)⟩

/-- C3: for the educational tone with absent or empty educational info, prompt
building fails with the `ValueError` (the spec's `InvalidConfiguration`), and
the remote text service is invoked zero times. -/
theorem C3_educational_invalid_config (env : Env)
    (survey_name compensation loi tone : List Char) (educational_info : Option (List Char))
    (htone : pyLower tone = str "educational")
    (hinfo : educational_info = none ∨ educational_info = some []) :
    construct_prompt survey_name compensation loi tone educational_info
      = Except.error (PyErr.valueError
          (str "Educational tone selected, but no educational info provided."))
    ∧ (generate_email env survey_name compensation loi tone educational_info).2 = [] := by
  have hcp : construct_prompt survey_name compensation loi tone educational_info
      = Except.error (PyErr.valueError
          (str "Educational tone selected, but no educational info provided.")) := by
    rcases hinfo with rfl | rfl <;> simp [construct_prompt, htone]
  refine ⟨hcp, ?_⟩
  unfold generate_email
  rw [hcp]

/-- C3 witness: the educational tone with no educational info. -/
theorem C3_witness :
    pyLower (str "educational") = str "educational"
    ∧ (construct_prompt (str "Sur") (str "50") (str "15") (str "educational") none
        = Except.error (PyErr.valueError
            (str "Educational tone selected, but no educational info provided."))
      ∧ (generate_email env0 (str "Sur") (str "50") (str "15") (str "educational") none).2
          = []) :=
  ⟨by decide, C3_educational_invalid_config env0 _ _ _ _ _ (by decide) (Or.inl rfl)⟩

/-- C4 counterexample: the prompt builder's error is not propagated unchanged;
`generate_email` returns it absorbed into the generic
`"Error generating email: ..."` string result. -/
theorem C4_counterexample :
    construct_prompt (str "Sur") (str "50") (str "15") (str "educational") none
      = Except.error (PyErr.valueError
          (str "Educational tone selected, but no educational info provided."))
    ∧ (generate_email env0 (str "Sur") (str "50") (str "15") (str "educational") none).1.2
      = some (str "Error generating email: Educational tone selected, but no educational info provided.")
    ∧ (str "Error generating email: Educational tone selected, but no educational info provided.")
      ≠ (str "Educational tone selected, but no educational info provided.") :=
  ⟨by decide, by decide, by decide⟩

/-- C4 (amended): `generate_email` catches the prompt builder's failure and
returns it as `(None, "Error generating email: " + str(e))`, the same generic
wrapper used for remote failures, with zero remote calls. -/
theorem C4_invalid_config_wrapped (env : Env)
    (survey_name compensation loi tone : List Char) (educational_info : Option (List Char))
    (e : PyErr)
    (h : construct_prompt survey_name compensation loi tone educational_info
      = Except.error e) :
    generate_email env survey_name compensation loi tone educational_info
      = ((none, some (str "Error generating email: " ++ pyStr e)), []) := by
  unfold generate_email
  rw [h]

/-- C4 witness: the wrapped error at the educational tone with no info. -/
theorem C4_witness :
    construct_prompt (str "Sur") (str "50") (str "15") (str "educational") none
      = Except.error (PyErr.valueError
          (str "Educational tone selected, but no educational info provided."))
    ∧ generate_email env0 (str "Sur") (str "50") (str "15") (str "educational") none
      = ((none, some (str "Error generating email: "
          ++ pyStr (PyErr.valueError
            (str "Educational tone selected, but no educational info provided.")))), []) :=
  ⟨by decide, C4_invalid_config_wrapped env0 _ _ _ _ _ _ (by decide)⟩

/-- C9: for every tone whose lower-cased form is outside the enumerated table,
prompt building succeeds and the output contains the formal tone-guideline
block verbatim. -/
theorem C9_unrecognized_tone_formal (survey_name compensation loi tone : List Char)
    (educational_info : Option (List Char))
    (h : pyLower tone ∉ tone_instructions.map Prod.fst) :
    ∃ pre post, construct_prompt survey_name compensation loi tone educational_info
      = Except.ok (pre ++ formal_tone_block ++ post) := by
  have hne : ¬ pyLower tone = str "educational" := by
    intro he
    exact h (by rw [he]; decide)
  have hbase : ∃ c ∈ email_base_prompt survey_name compensation loi tone,
      pyIsSpace c = false := by
    refine ⟨'Y', ?_, by decide⟩
    unfold email_base_prompt
    iterate 8 apply List.mem_append_left
    decide
  simp only [construct_prompt, if_neg hne, construct_prompt_tail, pyGet_not_key _ _ _ h]
  rw [pyStrip_middle _ _ _ hbase ⟨'E', by decide, by decide⟩]
  exact ⟨_, _, rfl⟩

/-- C9 witness: the unrecognised tone `"enthusiastic"`. -/
theorem C9_witness :
    pyLower (str "enthusiastic") ∉ tone_instructions.map Prod.fst
    ∧ ∃ pre post, construct_prompt (str "Sur") (str "50") (str "15") (str "enthusiastic") none
        = Except.ok (pre ++ formal_tone_block ++ post) :=
  ⟨by decide, C9_unrecognized_tone_formal _ _ _ _ _ (by decide)⟩

/-! ## The fallback renderer: totality, dimensions, wrapping -/

/-- Every line the greedy wrapper produces has at most 35 characters. -/
theorem wrapGo_bound : ∀ (cur : List Char) (ws : List (List Char)),
    cur.length ≤ 35 → ∀ l ∈ wrapGo cur ws, l.length ≤ 35 := by
  intro cur ws
  induction cur, ws using wrapGo.induct with
  | case1 cur h =>
    intro _ l hl
    rw [wrapGo, if_pos h] at hl
    exact absurd hl (List.not_mem_nil l)
  | case2 cur h =>
    intro hc l hl
    rw [wrapGo, if_neg h] at hl
    rw [List.mem_singleton] at hl
    subst hl
    exact hc
  | case3 cur w rest h h2 ih =>
    intro _ l hl
    rw [wrapGo, if_pos h, if_pos h2] at hl
    exact ih h2 l hl
  | case4 cur w rest h h2 ih =>
    intro _ l hl
    rw [wrapGo, if_pos h, if_neg h2] at hl
    rcases List.mem_cons.mp hl with rfl | hl2
    · simp [List.length_take]
    · exact ih (by simp) l hl2
  | case5 cur w rest h h2 ih =>
    intro hc l hl
    rw [wrapGo, if_neg h, if_pos h2] at hl
    refine ih ?_ l hl
    simp only [List.length_append, List.length_cons]
    omega
  | case6 cur w rest h h2 h3 ih =>
    intro hc l hl
    rw [wrapGo, if_neg h, if_neg h2, if_pos h3] at hl
    simp only [Bool.and_eq_true, decide_eq_true_eq] at h3
    rcases List.mem_cons.mp hl with rfl | hl2
    · simp only [List.length_append, List.length_cons, List.length_take]
      omega
    · exact ih (by simp) l hl2
  | case7 cur w rest h h2 h3 ih =>
    intro hc l hl
    rw [wrapGo, if_neg h, if_neg h2, if_neg h3] at hl
    rcases List.mem_cons.mp hl with rfl | hl2
    · exact hc
    · exact ih (by simp) l hl2

/-- The greedy wrapper introduces no newline characters. -/
theorem wrapGo_no_nl : ∀ (cur : List Char) (ws : List (List Char)),
    '\n' ∉ cur → (∀ w ∈ ws, '\n' ∉ w) → ∀ l ∈ wrapGo cur ws, '\n' ∉ l := by
  intro cur ws
  induction cur, ws using wrapGo.induct with
  | case1 cur h =>
    intro _ _ l hl
    rw [wrapGo, if_pos h] at hl
    exact absurd hl (List.not_mem_nil l)
  | case2 cur h =>
    intro hc _ l hl
    rw [wrapGo, if_neg h] at hl
    rw [List.mem_singleton] at hl
    subst hl
    exact hc
  | case3 cur w rest h h2 ih =>
    intro _ hws l hl
    rw [wrapGo, if_pos h, if_pos h2] at hl
    exact ih (hws w (by simp)) (fun x hx => hws x (by simp [hx])) l hl
  | case4 cur w rest h h2 ih =>
    intro _ hws l hl
    rw [wrapGo, if_pos h, if_neg h2] at hl
    rcases List.mem_cons.mp hl with rfl | hl2
    · exact fun hm => hws w (by simp) (List.take_subset _ _ hm)
    · refine ih (by simp) ?_ l hl2
      intro x hx
      rcases List.mem_cons.mp hx with rfl | hx2
      · exact fun hm => hws w (by simp) (List.drop_subset _ _ hm)
      · exact hws x (by simp [hx2])
  | case5 cur w rest h h2 ih =>
    intro hc hws l hl
    rw [wrapGo, if_neg h, if_pos h2] at hl
    refine ih ?_ (fun x hx => hws x (by simp [hx])) l hl
    intro hm
    rcases List.mem_append.mp hm with hm1 | hm2
    · exact hc hm1
    · rcases List.mem_cons.mp hm2 with he | hm3
      · cases he
      · exact hws w (by simp) hm3
  | case6 cur w rest h h2 h3 ih =>
    intro hc hws l hl
    rw [wrapGo, if_neg h, if_neg h2, if_pos h3] at hl
    rcases List.mem_cons.mp hl with rfl | hl2
    · intro hm
      rcases List.mem_append.mp hm with hm1 | hm2
      · exact hc hm1
      · rcases List.mem_cons.mp hm2 with he | hm3
        · cases he
        · exact hws w (by simp) (List.take_subset _ _ hm3)
    · refine ih (by simp) ?_ l hl2
      intro x hx
      rcases List.mem_cons.mp hx with rfl | hx2
      · exact fun hm => hws w (by simp) (List.drop_subset _ _ hm)
      · exact hws x (by simp [hx2])
  | case7 cur w rest h h2 h3 ih =>
    intro hc hws l hl
    rw [wrapGo, if_neg h, if_neg h2, if_neg h3] at hl
    rcases List.mem_cons.mp hl with rfl | hl2
    · exact hc
    · exact ih (by simp) hws l hl2

/-- Words split out of a string contain no whitespace characters. -/
theorem pyWordsGo_no_ws : ∀ (l acc : List Char), (∀ c ∈ acc, pyIsSpace c = false) →
    ∀ w ∈ pyWordsGo acc l, ∀ c ∈ w, pyIsSpace c = false := by
  intro l
  induction l with
  | nil =>
    intro acc hacc w hw c hc
    by_cases h : acc.isEmpty
    · simp only [pyWordsGo, if_pos h] at hw
      exact absurd hw (List.not_mem_nil w)
    · simp only [pyWordsGo, if_neg h] at hw
      rw [List.mem_singleton] at hw
      subst hw
      exact hacc c (List.mem_reverse.mp hc)
  | cons x rest ih =>
    intro acc hacc w hw c hc
    by_cases hx : pyIsSpace x = true
    · simp only [pyWordsGo, if_pos hx] at hw
      by_cases ha : acc.isEmpty
      · rw [if_pos ha] at hw
        exact ih [] (by simp) w hw c hc
      · rw [if_neg ha] at hw
        rcases List.mem_cons.mp hw with rfl | hw2
        · exact hacc c (List.mem_reverse.mp hc)
        · exact ih [] (by simp) w hw2 c hc
    · have hx' : pyIsSpace x = false := by revert hx; cases pyIsSpace x <;> simp
      simp only [pyWordsGo, hx', if_neg (by simp [hx'] : ¬ pyIsSpace x = true)] at hw
      refine ih (x :: acc) ?_ w hw c hc
      intro d hd
      rcases List.mem_cons.mp hd with rfl | hd2
      · exact hx'
      · exact hacc d hd2

/-- Splitting on `'\n'` walks through a newline-free chunk. -/
theorem splitNlGo_chunk : ∀ (l acc rest : List Char), '\n' ∉ l →
    splitNlGo acc (l ++ rest) = splitNlGo (l.reverse ++ acc) rest := by
  intro l
  induction l with
  | nil => intro acc rest _; simp
  | cons x t ih =>
    intro acc rest h
    have hx : ¬ x = '\n' := fun he => h (by simp [he])
    rw [List.cons_append]
    simp only [splitNlGo, if_neg hx]
    rw [ih (x :: acc) rest (fun hm => h (by simp [hm]))]
    simp

/-- Splitting the `"\n"`-join of newline-free lines recovers the lines. -/
theorem splitNl_joinNl : ∀ (ls : List (List Char)), ls ≠ [] →
    (∀ l ∈ ls, '\n' ∉ l) → pySplitNl (joinNl ls) = ls := by
  intro ls
  induction ls with
  | nil => intro h; cases h rfl
  | cons l tl ih =>
    intro _ hnl
    cases tl with
    | nil =>
      show splitNlGo [] (joinNl [l]) = [l]
      have : joinNl [l] = l ++ [] := by simp [joinNl]
      rw [this, splitNlGo_chunk l [] [] (hnl l (by simp))]
      simp [splitNlGo]
    | cons l2 tl2 =>
      show splitNlGo [] (joinNl (l :: l2 :: tl2)) = l :: l2 :: tl2
      have : joinNl (l :: l2 :: tl2) = l ++ '\n' :: joinNl (l2 :: tl2) := rfl
      rw [this, splitNlGo_chunk l [] _ (hnl l (by simp))]
      rw [splitNlGo, if_pos rfl]
      simp only [List.append_nil, List.reverse_reverse]
      congr 1
      exact ih (by simp) (fun x hx => hnl x (by simp [hx]))

/-! ## Base64 roundtrip and byte bounds -/

/-- Decoding inverts encoding on each 6-bit group. -/
theorem dec_enc : ∀ n, n < 64 → decChar (encChar n) = n := by decide

/-- No 6-bit group encodes to the padding character. -/
theorem encChar_ne_pad : ∀ n, n < 64 → ¬ encChar n = '=' := by decide

/-- Base64 decoding inverts base64 encoding on byte lists. -/
theorem b64_roundtrip : ∀ l : List Nat, (∀ b ∈ l, b < 256) →
    b64decode (b64encode l) = some l
  | [], _ => rfl
  | [a], h => by
    have ha : a < 256 := h a (by simp)
    rw [b64encode, b64decode]
    rw [if_pos rfl, if_pos (by simp)]
    rw [dec_enc _ (by omega), dec_enc _ (by omega)]
    simp only [Option.some.injEq, List.cons.injEq, and_true]
    omega
  | [a, b], h => by
    have ha : a < 256 := h a (by simp)
    have hb : b < 256 := h b (by simp)
    rw [b64encode, b64decode]
    rw [if_neg (encChar_ne_pad _ (by omega)), if_pos rfl,
      if_pos (show ([] : List Char).isEmpty = true from rfl)]
    rw [dec_enc _ (by omega), dec_enc _ (by omega), dec_enc _ (by omega)]
    simp only [Option.some.injEq, List.cons.injEq, and_true]
    omega
  | a :: b :: c :: rest, h => by
    have ha : a < 256 := h a (by simp)
    have hb : b < 256 := h b (by simp)
    have hc : c < 256 := h c (by simp)
    have ih := b64_roundtrip rest (fun x hx => h x (by simp [hx]))
    rw [b64encode, b64decode]
    rw [if_neg (encChar_ne_pad _ (by omega)), if_neg (encChar_ne_pad _ (by omega))]
    rw [ih]
    rw [dec_enc _ (by omega), dec_enc _ (by omega), dec_enc _ (by omega), dec_enc _ (by omega)]
    simp only [Option.map_some', Option.some.injEq, List.cons.injEq, and_true]
    refine ⟨by omega, by omega, by omega⟩

/-- The 4-byte serialisation of a natural number is byte-valued. -/
theorem encNat4_lt (n : Nat) : ∀ b ∈ encNat4 n, b < 256 := by
  intro b hb
  simp only [encNat4, List.mem_cons, List.not_mem_nil, or_false] at hb
  rcases hb with rfl | rfl | rfl | rfl <;> omega

/-- The integer serialisation is byte-valued. -/
theorem encInt4_lt (i : Int) : ∀ b ∈ encInt4 i, b < 256 := by
  intro b hb
  simp only [encInt4, List.mem_cons] at hb
  rcases hb with rfl | hb
  · split <;> omega
  · exact encNat4_lt _ b hb

/-- The character serialisation is byte-valued. -/
theorem encChars_lt (s : List Char) : ∀ b ∈ encChars s, b < 256 := by
  intro b hb
  simp only [encChars, List.mem_map] at hb
  obtain ⟨c, _, rfl⟩ := hb
  exact Nat.mod_lt _ (by omega)

/-- The optional-colour serialisation is byte-valued. -/
theorem encOpt_lt (o : Option (List Char)) : ∀ b ∈ encOpt o, b < 256 := by
  intro b hb
  cases o with
  | none => simp only [encOpt, List.mem_cons, List.not_mem_nil, or_false] at hb; omega
  | some col =>
    simp only [encOpt, List.mem_cons] at hb
    rcases hb with rfl | hb
    · omega
    · exact encChars_lt _ b hb

/-- Each serialised draw operation is byte-valued. -/
theorem DrawOp.enc_lt (op : DrawOp) : ∀ b ∈ op.enc, b < 256 := by
  intro b hb
  cases op with
  | rectangle x0 y0 x1 y1 o f w =>
    simp only [DrawOp.enc, List.mem_cons, List.mem_append] at hb
    rcases hb with rfl | (((((hb | hb) | hb) | hb) | hb) | hb) | hb
    · omega
    · exact encInt4_lt _ b hb
    · exact encInt4_lt _ b hb
    · exact encInt4_lt _ b hb
    · exact encInt4_lt _ b hb
    · exact encOpt_lt _ b hb
    · exact encOpt_lt _ b hb
    · exact encNat4_lt _ b hb
  | drawText x y s f fo =>
    simp only [DrawOp.enc, List.mem_cons, List.mem_append] at hb
    rcases hb with rfl | ((((hb | hb) | hb) | hb) | hb)
    · omega
    · exact encInt4_lt _ b hb
    · exact encInt4_lt _ b hb
    · exact encChars_lt _ b hb
    · exact encChars_lt _ b hb
    · exact encNat4_lt _ b hb
  | polygon pts f =>
    simp only [DrawOp.enc, List.mem_cons, List.mem_append] at hb
    rcases hb with rfl | hb | hb
    · omega
    · rw [List.mem_flatten] at hb
      obtain ⟨l, hl, hbl⟩ := hb
      rw [List.mem_map] at hl
      obtain ⟨p, _, rfl⟩ := hl
      rcases List.mem_append.mp hbl with hb2 | hb2
      · exact encInt4_lt _ b hb2
      · exact encInt4_lt _ b hb2
    · exact encChars_lt _ b hb

/-- The PNG serialisation of any image is byte-valued. -/
theorem pngEncode_lt (img : Img) : ∀ b ∈ pngEncode img, b < 256 := by
  intro b hb
  simp only [pngEncode, List.mem_append] at hb
  rcases hb with (((((hb | hb) | hb) | hb) | hb) | hb) | hb
  · simp only [pngSig, List.mem_cons, List.not_mem_nil, or_false] at hb
    rcases hb with rfl | rfl | rfl | rfl | rfl | rfl | rfl | rfl <;> omega
  · exact encNat4_lt _ b hb
  · exact encNat4_lt _ b hb
  · exact encChars_lt _ b hb
  · exact encChars_lt _ b hb
  · rw [List.mem_map] at hb
    obtain ⟨x, _, rfl⟩ := hb
    exact Nat.mod_lt _ (by omega)
  · rw [List.mem_flatten] at hb
    obtain ⟨l, hl, hbl⟩ := hb
    rw [List.mem_map] at hl
    obtain ⟨op, _, rfl⟩ := hl
    exact DrawOp.enc_lt op b hbl

/-- The base64 payload of a PNG-serialised image decodes to the same bytes. -/
theorem b64_png_roundtrip (img : Img) :
    b64decode (b64encode (pngEncode img)) = some (pngEncode img) :=
  b64_roundtrip _ (pngEncode_lt img)

/-! ## Filesystem and filename helpers -/

/-- `makedirs` makes the directory present. -/
theorem mkdirs_mem (fs : FS) (d : List Char) : d ∈ (mkdirs fs d).dirs := by
  by_cases h : d ∈ fs.dirs <;> simp [mkdirs, h]

/-- Writing a file does not change the directories. -/
theorem writeFile_dirs (fs : FS) (p : List Char) (b : List Nat) :
    (writeFile fs p b).dirs = fs.dirs := rfl

/-- The written file is present. -/
theorem writeFile_mem (fs : FS) (p : List Char) (b : List Nat) :
    (p, b) ∈ (writeFile fs p b).files := List.mem_cons_self _ _

/-- A `".png"` suffix is recognised after any prefix. -/
theorem isSuffixOf_png (x : List Char) :
    (str ".png").isSuffixOf (x ++ str ".png") = true := by
  simp only [List.isSuffixOf_iff_suffix]
  exact List.suffix_append x _

/-- The background colour selected for any specialty parses as a hex triple. -/
theorem fallback_colors_bg_hex (sp : List Char) :
    (hexTriple (fallback_colors sp).1).isSome = true := by
  unfold fallback_colors pyGet
  cases h : colors.find? (fun e => e.1 == pyLower sp) with
  | none => decide
  | some e =>
    have he := List.mem_of_find?_eq_some h
    simp only [colors, List.mem_cons, List.not_mem_nil, or_false] at he
    rcases he with rfl | rfl | rfl | rfl | rfl | rfl | rfl <;> decide

/-- The fallback renderer never raises: the hex parse always succeeds. -/
theorem generate_pro_fallback_ok (survey_name specialty : List Char) (ar : Bool) :
    generate_pro_fallback survey_name specialty ar
      = Except.ok (fallback_render survey_name specialty ar) := by
  unfold generate_pro_fallback
  have h := fallback_colors_bg_hex specialty
  cases ht : hexTriple (fallback_colors specialty).1 with
  | none => rw [ht] at h; cases h
  | some v => rfl

/-! ## The response-part loop and the two acquisition paths -/

/-- When no part decodes to an image, the loop returns the no-image result or
raises the decode failure, leaving the filesystem unchanged. -/
theorem gemini_loop_fails (env : Env) (sn : List Char) (sf : Option (List Char)) :
    ∀ (parts : List Part) (msg : List Char) (fs : FS), loopFails env parts = true →
      gemini_loop env sn sf msg fs parts
          = Except.ok (⟨none, none, none, str "No image generated by Gemini API"⟩, fs)
      ∨ ∃ e, gemini_loop env sn sf msg fs parts = Except.error (e, fs) := by
  intro parts
  induction parts with
  | nil => intro msg fs _; exact Or.inl rfl
  | cons p rest ih =>
    intro msg fs hf
    obtain ⟨pt, pd⟩ := p
    cases pt with
    | some t =>
      have hf' : loopFails env rest = true := hf
      exact ih t fs hf'
    | none =>
      cases pd with
      | none =>
        have hf' : loopFails env rest = true := hf
        exact ih msg fs hf'
      | some d =>
        cases hd : env.decode d with
        | ok img =>
          exfalso
          have hfalse : loopFails env (⟨none, some d⟩ :: rest) = false := by
            simp only [loopFails, hd]
          rw [hfalse] at hf
          cases hf
        | error e =>
          refine Or.inr ⟨e, ?_⟩
          simp only [gemini_loop, hd]

/-- Inversion of a successful loop run: the image is the decode of the first
image part, the filename and base64 payload have the derived shapes, saving
succeeded, and the final filesystem holds the written file. -/
theorem gemini_loop_success (env : Env) (sn : List Char) (sf : Option (List Char)) :
    ∀ (parts : List Part) (msg : List Char) (fs : FS) (r : GenResult) (fs' : FS),
      gemini_loop env sn sf msg fs parts = Except.ok (r, fs') → r.pil.isSome = true →
      ∃ img, r = ⟨some img, some (survey_image_filename env sn sf),
          some (b64encode (pngEncode img)), r.message⟩
        ∧ env.save_result = none
        ∧ (∃ d, firstImageData parts = some d ∧ env.decode d = Except.ok img)
        ∧ fs' = writeFile (mkdirs fs outputDir)
            (joinPath outputDir (survey_image_filename env sn sf))
            (encodeForPath (survey_image_filename env sn sf) img) := by
  intro parts
  induction parts with
  | nil =>
    intro msg fs r fs' heq hsome
    simp only [gemini_loop, Except.ok.injEq, Prod.mk.injEq] at heq
    obtain ⟨h1, _⟩ := heq
    rw [← h1] at hsome
    simp at hsome
  | cons p rest ih =>
    intro msg fs r fs' heq hsome
    obtain ⟨pt, pd⟩ := p
    cases pt with
    | some t =>
      obtain ⟨img, h1, h2, ⟨d, h3, h4⟩, h5⟩ := ih t fs r fs' heq hsome
      exact ⟨img, h1, h2, ⟨d, h3, h4⟩, h5⟩
    | none =>
      cases pd with
      | none =>
        obtain ⟨img, h1, h2, ⟨d, h3, h4⟩, h5⟩ := ih msg fs r fs' heq hsome
        exact ⟨img, h1, h2, ⟨d, h3, h4⟩, h5⟩
      | some d =>
        cases hd : env.decode d with
        | error e =>
          simp only [gemini_loop, hd] at heq
          cases heq
        | ok img =>
          cases hs : env.save_result with
          | some e =>
            simp only [gemini_loop, hd, hs] at heq
            cases heq
          | none =>
            simp only [gemini_loop, hd, hs, Except.ok.injEq, Prod.mk.injEq] at heq
            obtain ⟨h1, h2⟩ := heq
            refine ⟨img, ?_, rfl, ⟨d, rfl, hd⟩, h2.symm⟩
            rw [← h1]

/-- Positive run of the loop: when the first image part decodes and saving
succeeds, the loop returns that image with the derived filename, the PNG
base64 payload, and the last text seen before the image as message. -/
theorem gemini_loop_run (env : Env) (sn : List Char) (sf : Option (List Char))
    (hsave : env.save_result = none) :
    ∀ (parts : List Part) (msg : List Char) (fs : FS) (d : List Nat) (img : Img),
      firstImageData parts = some d → env.decode d = Except.ok img →
      gemini_loop env sn sf msg fs parts
        = Except.ok (⟨some img, some (survey_image_filename env sn sf),
            some (b64encode (pngEncode img)), successMessage msg parts⟩,
          writeFile (mkdirs fs outputDir)
            (joinPath outputDir (survey_image_filename env sn sf))
            (encodeForPath (survey_image_filename env sn sf) img)) := by
  intro parts
  induction parts with
  | nil =>
    intro msg fs d img hfi
    simp [firstImageData] at hfi
  | cons p rest ih =>
    intro msg fs d img hfi hdec
    obtain ⟨pt, pd⟩ := p
    cases pt with
    | some t =>
      have hfi' : firstImageData rest = some d := hfi
      have hmsg : successMessage msg (⟨some t, pd⟩ :: rest) = successMessage t rest := rfl
      rw [hmsg]
      exact ih t fs d img hfi' hdec
    | none =>
      cases pd with
      | none => exact ih msg fs d img hfi hdec
      | some d0 =>
        have hd0 : d0 = d := by simpa [firstImageData] using hfi
        subst hd0
        simp only [gemini_loop, hdec, hsave, successMessage]

/-- A failing remote attempt leaves `_try_new_gemini_api` with no image. -/
theorem try_fails (env : Env) (prompt sn : List Char) (sf : Option (List Char)) (fs : FS)
    (h : remoteFailure env prompt = true) :
    (try_new_gemini_api env prompt sn sf fs).1.pil = none := by
  unfold remoteFailure at h
  unfold try_new_gemini_api
  split
  · rfl
  next parts heq2 =>
    rw [heq2] at h
    have h' : loopFails env parts = true := h
    split
    next e fs1 heq3 => rfl
    next r heq3 =>
      rcases gemini_loop_fails env sn sf parts
          (str "AI-generated image created successfully") fs h' with hok | ⟨e, herr⟩
      · rw [heq3] at hok
        have hr2 : r = (⟨none, none, none, str "No image generated by Gemini API"⟩, fs) :=
          Except.ok.inj hok
        rw [hr2]
      · rw [heq3] at herr
        cases herr

/-- Inversion of a successful `_try_new_gemini_api` run. -/
theorem try_success (env : Env) (prompt sn : List Char) (sf : Option (List Char)) (fs : FS)
    (r : GenResult) (fs' : FS)
    (heq : try_new_gemini_api env prompt sn sf fs = (r, fs'))
    (hsome : r.pil.isSome = true) :
    ∃ img, r = ⟨some img, some (survey_image_filename env sn sf),
        some (b64encode (pngEncode img)), r.message⟩
      ∧ fs' = writeFile (mkdirs fs outputDir)
          (joinPath outputDir (survey_image_filename env sn sf))
          (encodeForPath (survey_image_filename env sn sf) img) := by
  unfold try_new_gemini_api at heq
  split at heq
  · rw [Prod.mk.injEq] at heq
    obtain ⟨h1, _⟩ := heq
    rw [← h1] at hsome
    simp at hsome
  next parts heq2 =>
    split at heq
    next e fs1 heq3 =>
      rw [Prod.mk.injEq] at heq
      obtain ⟨h1, _⟩ := heq
      rw [← h1] at hsome
      simp at hsome
    next r0 heq3 =>
      rw [heq] at heq3
      obtain ⟨img, ha, _, _, hb⟩ :=
        gemini_loop_success env sn sf parts _ fs r fs' heq3 hsome
      exact ⟨img, ha, hb⟩

/-- The two outcomes of `_generate_fallback_image`: success when saving
succeeds, the error result carrying `str(e)` when saving raises. -/
theorem fallback_shape (env : Env) (sn spec : List Char) (sf : Option (List Char)) (fs : FS) :
    (env.save_result = none →
      generate_fallback_image env sn spec sf fs
        = (⟨some (fallback_render sn spec env.arialAvailable),
            some (fallback_image_filename env sn sf),
            some (b64encode (pngEncode (fallback_render sn spec env.arialAvailable))),
            str "Professional fallback image generated successfully."⟩,
          writeFile (mkdirs fs outputDir)
            (joinPath outputDir (fallback_image_filename env sn sf))
            (encodeForPath (fallback_image_filename env sn sf)
              (fallback_render sn spec env.arialAvailable))))
    ∧ (∀ e, env.save_result = some e →
        generate_fallback_image env sn spec sf fs
          = (⟨none, none, none, pyStr e⟩, mkdirs fs outputDir)) := by
  constructor
  · intro hs
    unfold generate_fallback_image
    rw [generate_pro_fallback_ok]
    simp only [hs]
  · intro e hs
    unfold generate_fallback_image
    rw [generate_pro_fallback_ok]
    simp only [hs]

/-- Inversion of a successful `_generate_fallback_image` run. -/
theorem fallback_success (env : Env) (sn spec : List Char) (sf : Option (List Char)) (fs : FS)
    (r : GenResult) (fs' : FS)
    (heq : generate_fallback_image env sn spec sf fs = (r, fs'))
    (hsome : r.filename.isSome = true) :
    ∃ img, r = ⟨some img, some (fallback_image_filename env sn sf),
        some (b64encode (pngEncode img)),
        str "Professional fallback image generated successfully."⟩
      ∧ fs' = writeFile (mkdirs fs outputDir)
          (joinPath outputDir (fallback_image_filename env sn sf))
          (encodeForPath (fallback_image_filename env sn sf) img) := by
  unfold generate_fallback_image at heq
  rw [generate_pro_fallback_ok] at heq
  cases hs : env.save_result with
  | some e =>
    rw [hs] at heq
    simp only [Prod.mk.injEq] at heq
    obtain ⟨h1, _⟩ := heq
    rw [← h1] at hsome
    simp at hsome
  | none =>
    rw [hs] at heq
    simp only [Prod.mk.injEq] at heq
    obtain ⟨h1, h2⟩ := heq
    exact ⟨fallback_render sn spec env.arialAvailable, h1.symm, h2.symm⟩

/-- The orchestrator when Gemini is available and the remote attempt
produced an image. -/
theorem generate_survey_image_eq_try (env : Env) (fs : FS)
    (sn spec tone style : List Char) (itext : Bool) (sf : Option (List Char))
    (hg : env.gemini_available = true)
    (hp : (try_new_gemini_api env (construct_image_prompt sn spec tone style itext)
        sn sf fs).1.pil.isSome = true) :
    generate_survey_image env fs sn spec tone style itext sf
      = ((try_new_gemini_api env (construct_image_prompt sn spec tone style itext) sn sf fs).1,
         (try_new_gemini_api env (construct_image_prompt sn spec tone style itext) sn sf fs).2,
         ⟨[construct_image_prompt sn spec tone style itext], 0⟩) := by
  simp only [generate_survey_image, hg, hp, if_true]

/-- The orchestrator when Gemini is available and the remote attempt failed:
one fallback invocation on the filesystem state left by the attempt. -/
theorem generate_survey_image_eq_fb (env : Env) (fs : FS)
    (sn spec tone style : List Char) (itext : Bool) (sf : Option (List Char))
    (hg : env.gemini_available = true)
    (hp : (try_new_gemini_api env (construct_image_prompt sn spec tone style itext)
        sn sf fs).1.pil.isSome = false) :
    generate_survey_image env fs sn spec tone style itext sf
      = ((generate_fallback_image env sn spec sf
            (try_new_gemini_api env (construct_image_prompt sn spec tone style itext) sn sf fs).2).1,
         (generate_fallback_image env sn spec sf
            (try_new_gemini_api env (construct_image_prompt sn spec tone style itext) sn sf fs).2).2,
         ⟨[construct_image_prompt sn spec tone style itext], 1⟩) := by
  simp only [generate_survey_image, hg, hp, if_true, Bool.false_eq_true, if_false]

/-- The orchestrator when no Gemini client is available: fallback only. -/
theorem generate_survey_image_eq_nogem (env : Env) (fs : FS)
    (sn spec tone style : List Char) (itext : Bool) (sf : Option (List Char))
    (hg : env.gemini_available = false) :
    generate_survey_image env fs sn spec tone style itext sf
      = ((generate_fallback_image env sn spec sf fs).1,
         (generate_fallback_image env sn spec sf fs).2, ⟨[], 1⟩) := by
  simp only [generate_survey_image, hg, Bool.false_eq_true, if_false]

/-- C2: fallback rendering is total: for every survey-name string and every
specialty string, with or without the scalable font, `generate_pro_fallback`
returns a 1280 by 720 RGB image without raising, and the title is wrapped at
a 35-character width (every wrapped line has at most 35 characters). -/
theorem C2_fallback_total (survey_name specialty : List Char) (arialAvailable : Bool) :
    ∃ img, generate_pro_fallback survey_name specialty arialAvailable = Except.ok img
      ∧ img.width = 1280 ∧ img.height = 720 ∧ img.mode = str "RGB"
      ∧ ∀ line ∈ pySplitNl (pyFill35 survey_name), line.length ≤ 35 := by
  refine ⟨fallback_render survey_name specialty arialAvailable,
    generate_pro_fallback_ok _ _ _, rfl, rfl, rfl, ?_⟩
  intro line hline
  have hwords : ∀ w ∈ pyWords survey_name, '\n' ∉ w := by
    intro w hw hmem
    have hns := pyWordsGo_no_ws survey_name [] (by simp) w hw '\n' hmem
    exact absurd hns (by decide)
  have hnl : ∀ l ∈ wrapGo [] (pyWords survey_name), '\n' ∉ l :=
    wrapGo_no_nl [] (pyWords survey_name) (by simp) hwords
  have hbd : ∀ l ∈ wrapGo [] (pyWords survey_name), l.length ≤ 35 :=
    wrapGo_bound [] (pyWords survey_name) (by simp)
  cases hwrap : wrapGo [] (pyWords survey_name) with
  | nil =>
    have hsplit : pySplitNl (pyFill35 survey_name) = [[]] := by
      unfold pyFill35
      rw [hwrap]
      rfl
    rw [hsplit] at hline
    rw [List.mem_singleton] at hline
    subst hline
    decide
  | cons a t =>
    have hsplit : pySplitNl (pyFill35 survey_name) = a :: t := by
      unfold pyFill35
      rw [hwrap]
      exact splitNl_joinNl _ (by simp) (hwrap ▸ hnl)
    rw [hsplit] at hline
    exact (hwrap ▸ hbd) line hline

/-- Forward direction of the success criterion: a successful attempt implies
a decodable first image part. -/
theorem try_success_first (env : Env) (prompt sn : List Char) (sf : Option (List Char))
    (fs : FS) (parts : List Part)
    (hresp : env.remote_image prompt = Except.ok parts)
    (hsome : (try_new_gemini_api env prompt sn sf fs).1.pil.isSome = true) :
    ∃ d img, firstImageData parts = some d ∧ env.decode d = Except.ok img := by
  unfold try_new_gemini_api at hsome
  split at hsome
  · simp at hsome
  next parts2 heq2 =>
    rw [hresp] at heq2
    cases Except.ok.inj heq2
    split at hsome
    next e fs1 heq3 => simp at hsome
    next r0 heq3 =>
      obtain ⟨r, fs2⟩ := r0
      obtain ⟨img, _, _, ⟨d, hfi, hdec⟩, _⟩ :=
        gemini_loop_success env sn sf parts _ fs r fs2 heq3 hsome
      exact ⟨d, img, hfi, hdec⟩

/-- The full positive run of `_try_new_gemini_api`. -/
theorem try_run (env : Env) (prompt sn : List Char) (sf : Option (List Char)) (fs : FS)
    (parts : List Part) (d : List Nat) (img : Img)
    (hresp : env.remote_image prompt = Except.ok parts)
    (hsave : env.save_result = none)
    (hfi : firstImageData parts = some d) (hdec : env.decode d = Except.ok img) :
    try_new_gemini_api env prompt sn sf fs
      = (⟨some img, some (survey_image_filename env sn sf),
          some (b64encode (pngEncode img)),
          successMessage (str "AI-generated image created successfully") parts⟩,
        writeFile (mkdirs fs outputDir)
          (joinPath outputDir (survey_image_filename env sn sf))
          (encodeForPath (survey_image_filename env sn sf) img)) := by
  unfold try_new_gemini_api
  split
  next e heqe => rw [hresp] at heqe; cases heqe
  next parts2 heq2 =>
    rw [hresp] at heq2
    cases Except.ok.inj heq2
    split
    next e fs1 heq3 =>
      rw [gemini_loop_run env sn sf hsave parts _ fs d img hfi hdec] at heq3
      cases heq3
    next r heq3 =>
      rw [gemini_loop_run env sn sf hsave parts _ fs d img hfi hdec] at heq3
      exact (Except.ok.inj heq3).symm

/-- C5 (amended): given a response and successful saving, the attempt succeeds
iff some part is classified as image data and the first such part decodes; the
returned buffer is that decode, and the message is the last text part seen
before the first image part (the default when none precedes it) — text parts
after the first image part do not affect the message. -/
theorem C5_remote_success_criterion (env : Env) (prompt survey_name : List Char)
    (save_filename : Option (List Char)) (fs : FS) (parts : List Part)
    (hresp : env.remote_image prompt = Except.ok parts)
    (hsave : env.save_result = none) :
    ((try_new_gemini_api env prompt survey_name save_filename fs).1.pil.isSome = true
      ↔ ∃ d img, firstImageData parts = some d ∧ env.decode d = Except.ok img)
    ∧ (∀ d img, firstImageData parts = some d → env.decode d = Except.ok img →
        (try_new_gemini_api env prompt survey_name save_filename fs).1
          = ⟨some img, some (survey_image_filename env survey_name save_filename),
              some (b64encode (pngEncode img)),
              successMessage (str "AI-generated image created successfully") parts⟩) := by
  constructor
  · constructor
    · exact try_success_first env prompt survey_name save_filename fs parts hresp
    · rintro ⟨d, img, hfi, hdec⟩
      rw [try_run env prompt survey_name save_filename fs parts d img hresp hsave hfi hdec]
      rfl
  · intro d img hfi hdec
    rw [try_run env prompt survey_name save_filename fs parts d img hresp hsave hfi hdec]

/-- C5 counterexample: a text part accompanies the response (after the image
part), yet the returned message is the default, not that text — refuting
"whenever any text part accompanies the response, that text replaces the
default success message". -/
theorem C5_counterexample :
    envC5.remote_image (str "p") = Except.ok partsImgThenText
    ∧ (⟨some (str "A detailed description"), none⟩ : Part) ∈ partsImgThenText
    ∧ (try_new_gemini_api envC5 (str "p") (str "S") none fs0).1.pil.isSome = true
    ∧ (try_new_gemini_api envC5 (str "p") (str "S") none fs0).1.message
        = str "AI-generated image created successfully"
    ∧ str "AI-generated image created successfully" ≠ str "A detailed description" :=
  ⟨rfl, by decide, by decide, by decide, by decide⟩

/-- C5 witness: a text part before the image part becomes the message. -/
theorem C5_witness :
    envC5w.remote_image (str "p") = Except.ok partsTextThenImg
    ∧ envC5w.save_result = none
    ∧ (((try_new_gemini_api envC5w (str "p") (str "S") none fs0).1.pil.isSome = true
        ↔ ∃ d img, firstImageData partsTextThenImg = some d
            ∧ envC5w.decode d = Except.ok img)
      ∧ (∀ d img, firstImageData partsTextThenImg = some d →
          envC5w.decode d = Except.ok img →
          (try_new_gemini_api envC5w (str "p") (str "S") none fs0).1
            = ⟨some img, some (survey_image_filename envC5w (str "S") none),
                some (b64encode (pngEncode img)),
                successMessage (str "AI-generated image created successfully")
                  partsTextThenImg⟩)) :=
  ⟨rfl, rfl, C5_remote_success_criterion envC5w (str "p") (str "S") none fs0
    partsTextThenImg rfl rfl⟩

/-- C1: when the Gemini client is available and the remote attempt fails
(network or API error, no image part, or decode failure), exactly one fallback
attempt is made; when saving succeeds the request still succeeds with the
fallback image and, for a derived filename, the `"fallback_"` prefix; only a
raising fallback step yields the error result (None values plus a message)
instead of an exception. -/
theorem C1_fallback_on_remote_failure (env : Env) (fs : FS)
    (survey_name medical_specialty tone image_style : List Char) (include_text : Bool)
    (save_filename : Option (List Char))
    (hgem : env.gemini_available = true)
    (hfail : remoteFailure env
      (construct_image_prompt survey_name medical_specialty tone image_style include_text)
      = true) :
    (generate_survey_image env fs survey_name medical_specialty tone image_style
      include_text save_filename).2.2.fallback_calls = 1
    ∧ (env.save_result = none →
        (generate_survey_image env fs survey_name medical_specialty tone image_style
          include_text save_filename).1
          = ⟨some (fallback_render survey_name medical_specialty env.arialAvailable),
              some (fallback_image_filename env survey_name save_filename),
              some (b64encode (pngEncode
                (fallback_render survey_name medical_specialty env.arialAvailable))),
              str "Professional fallback image generated successfully."⟩)
    ∧ (save_filename = none →
        ∃ t, fallback_image_filename env survey_name save_filename = str "fallback_" ++ t)
    ∧ (∀ e, env.save_result = some e →
        (generate_survey_image env fs survey_name medical_specialty tone image_style
          include_text save_filename).1 = ⟨none, none, none, pyStr e⟩) := by
  have hpil := try_fails env
    (construct_image_prompt survey_name medical_specialty tone image_style include_text)
    survey_name save_filename fs hfail
  have hps : (try_new_gemini_api env
      (construct_image_prompt survey_name medical_specialty tone image_style include_text)
      survey_name save_filename fs).1.pil.isSome = false := by
    rw [hpil]
    rfl
  have hgen := generate_survey_image_eq_fb env fs survey_name medical_specialty tone
    image_style include_text save_filename hgem hps
  refine ⟨?_, ?_, ?_, ?_⟩
  · rw [hgen]
  · intro hs
    rw [hgen,
      (fallback_shape env survey_name medical_specialty save_filename _).1 hs]
  · intro hsf
    subst hsf
    exact ⟨sanitizeStem survey_name ++ str "_" ++ env.now ++ str ".png",
      by simp [fallback_image_filename, List.append_assoc]⟩
  · intro e hs
    rw [hgen,
      (fallback_shape env survey_name medical_specialty save_filename _).2 e hs]

/-- C1 witness: a raising remote image call with the fallback succeeding. -/
theorem C1_witness :
    envC1.gemini_available = true
    ∧ remoteFailure envC1 (construct_image_prompt (str "Sur") (str "general")
        (str "professional") (str "professional") true) = true
    ∧ ((generate_survey_image envC1 fs0 (str "Sur") (str "general") (str "professional")
          (str "professional") true none).2.2.fallback_calls = 1
      ∧ (envC1.save_result = none →
          (generate_survey_image envC1 fs0 (str "Sur") (str "general") (str "professional")
            (str "professional") true none).1
            = ⟨some (fallback_render (str "Sur") (str "general") envC1.arialAvailable),
                some (fallback_image_filename envC1 (str "Sur") none),
                some (b64encode (pngEncode
                  (fallback_render (str "Sur") (str "general") envC1.arialAvailable))),
                str "Professional fallback image generated successfully."⟩)
      ∧ ((none : Option (List Char)) = none →
          ∃ t, fallback_image_filename envC1 (str "Sur") none = str "fallback_" ++ t)
      ∧ (∀ e, envC1.save_result = some e →
          (generate_survey_image envC1 fs0 (str "Sur") (str "general") (str "professional")
            (str "professional") true none).1 = ⟨none, none, none, pyStr e⟩)) :=
  ⟨rfl, by decide, C1_fallback_on_remote_failure envC1 fs0 _ _ _ _ _ _ rfl (by decide)⟩

/-- A successful fallback acquisition persists the PNG bytes under the
returned filename and returns their base64 payload. -/
theorem C8_fb_case (env : Env) (sn spec : List Char) (sf : Option (List Char)) (fs2 : FS)
    (hsfx : (str ".png").isSuffixOf (fallback_image_filename env sn sf) = true)
    (hsucc : (generate_fallback_image env sn spec sf fs2).1.filename.isSome = true) :
    ∃ img fn b64, (generate_fallback_image env sn spec sf fs2).1.pil = some img
      ∧ (generate_fallback_image env sn spec sf fs2).1.filename = some fn
      ∧ (generate_fallback_image env sn spec sf fs2).1.b64 = some b64
      ∧ outputDir ∈ (generate_fallback_image env sn spec sf fs2).2.dirs
      ∧ (joinPath outputDir fn, pngEncode img)
          ∈ (generate_fallback_image env sn spec sf fs2).2.files
      ∧ b64decode b64 = some (pngEncode img) := by
  obtain ⟨img, ha, hb⟩ := fallback_success env sn spec sf fs2 _ _ Prod.mk.eta.symm hsucc
  refine ⟨img, fallback_image_filename env sn sf, b64encode (pngEncode img),
    ?_, ?_, ?_, ?_, ?_, b64_png_roundtrip img⟩
  · rw [ha]
  · rw [ha]
  · rw [ha]
  · rw [hb]
    exact mkdirs_mem _ _
  · rw [hb]
    have he : encodeForPath (fallback_image_filename env sn sf) img = pngEncode img := by
      rw [encodeForPath, if_pos hsfx]
    rw [he]
    exact writeFile_mem _ _ _

/-- C8: on every successful image acquisition (remote or fallback), the PNG
bytes of the image are written to the output directory (present in the final
filesystem) under the returned filename, and the returned base64 payload
decodes to exactly those bytes. -/
theorem C8_persisted_and_encoded (env : Env) (fs : FS)
    (survey_name medical_specialty tone image_style : List Char) (include_text : Bool)
    (save_filename : Option (List Char))
    (hsf : save_filename = none
      ∨ ∃ f, save_filename = some f ∧ (str ".png").isSuffixOf f = true)
    (hsucc : (generate_survey_image env fs survey_name medical_specialty tone image_style
      include_text save_filename).1.filename.isSome = true) :
    ∃ img fn b64,
      (generate_survey_image env fs survey_name medical_specialty tone image_style
        include_text save_filename).1.pil = some img
      ∧ (generate_survey_image env fs survey_name medical_specialty tone image_style
          include_text save_filename).1.filename = some fn
      ∧ (generate_survey_image env fs survey_name medical_specialty tone image_style
          include_text save_filename).1.b64 = some b64
      ∧ outputDir ∈ (generate_survey_image env fs survey_name medical_specialty tone
          image_style include_text save_filename).2.1.dirs
      ∧ (joinPath outputDir fn, pngEncode img)
          ∈ (generate_survey_image env fs survey_name medical_specialty tone image_style
              include_text save_filename).2.1.files
      ∧ b64decode b64 = some (pngEncode img) := by
  have hsfx_s : (str ".png").isSuffixOf
      (survey_image_filename env survey_name save_filename) = true := by
    rcases hsf with rfl | ⟨f, rfl, hf⟩
    · exact isSuffixOf_png _
    · exact hf
  have hsfx_f : (str ".png").isSuffixOf
      (fallback_image_filename env survey_name save_filename) = true := by
    rcases hsf with rfl | ⟨f, rfl, hf⟩
    · exact isSuffixOf_png _
    · exact hf
  by_cases hg : env.gemini_available = true
  · by_cases hp : (try_new_gemini_api env
        (construct_image_prompt survey_name medical_specialty tone image_style include_text)
        survey_name save_filename fs).1.pil.isSome = true
    · have hgen := generate_survey_image_eq_try env fs survey_name medical_specialty tone
        image_style include_text save_filename hg hp
      rw [hgen] at hsucc ⊢
      obtain ⟨img, ha, hb⟩ := try_success env
        (construct_image_prompt survey_name medical_specialty tone image_style include_text)
        survey_name save_filename fs _ _ Prod.mk.eta.symm hp
      refine ⟨img, survey_image_filename env survey_name save_filename,
        b64encode (pngEncode img), ?_, ?_, ?_, ?_, ?_, b64_png_roundtrip img⟩
      · show (try_new_gemini_api env _ survey_name save_filename fs).1.pil = some img
        rw [ha]
      · show (try_new_gemini_api env _ survey_name save_filename fs).1.filename = some _
        rw [ha]
      · show (try_new_gemini_api env _ survey_name save_filename fs).1.b64 = some _
        rw [ha]
      · show outputDir ∈ (try_new_gemini_api env _ survey_name save_filename fs).2.dirs
        rw [hb]
        exact mkdirs_mem _ _
      · show (joinPath outputDir _, pngEncode img)
          ∈ (try_new_gemini_api env _ survey_name save_filename fs).2.files
        rw [hb]
        have he : encodeForPath (survey_image_filename env survey_name save_filename) img
            = pngEncode img := by
          rw [encodeForPath, if_pos hsfx_s]
        rw [he]
        exact writeFile_mem _ _ _
    · rw [Bool.not_eq_true] at hp
      have hgen := generate_survey_image_eq_fb env fs survey_name medical_specialty tone
        image_style include_text save_filename hg hp
      rw [hgen] at hsucc ⊢
      exact C8_fb_case env survey_name medical_specialty save_filename _ hsfx_f hsucc
  · rw [Bool.not_eq_true] at hg
    have hgen := generate_survey_image_eq_nogem env fs survey_name medical_specialty tone
      image_style include_text save_filename hg
    rw [hgen] at hsucc ⊢
    exact C8_fb_case env survey_name medical_specialty save_filename fs hsfx_f hsucc

/-- C8 witness: a successful fallback acquisition with a derived filename. -/
theorem C8_witness :
    ((none : Option (List Char)) = none
      ∨ ∃ f, (none : Option (List Char)) = some f ∧ (str ".png").isSuffixOf f = true)
    ∧ (generate_survey_image env0 fs0 (str "Sur") (str "general") (str "professional")
        (str "professional") true none).1.filename.isSome = true
    ∧ ∃ img fn b64,
        (generate_survey_image env0 fs0 (str "Sur") (str "general") (str "professional")
          (str "professional") true none).1.pil = some img
        ∧ (generate_survey_image env0 fs0 (str "Sur") (str "general") (str "professional")
            (str "professional") true none).1.filename = some fn
        ∧ (generate_survey_image env0 fs0 (str "Sur") (str "general") (str "professional")
            (str "professional") true none).1.b64 = some b64
        ∧ outputDir ∈ (generate_survey_image env0 fs0 (str "Sur") (str "general")
            (str "professional") (str "professional") true none).2.1.dirs
        ∧ (joinPath outputDir fn, pngEncode img)
            ∈ (generate_survey_image env0 fs0 (str "Sur") (str "general")
                (str "professional") (str "professional") true none).2.1.files
        ∧ b64decode b64 = some (pngEncode img) :=
  ⟨Or.inl rfl, by decide,
    C8_persisted_and_encoded env0 fs0 _ _ _ _ _ _ (Or.inl rfl) (by decide)⟩

/-- C10: the `/generate` endpoint's image generation depends only on the
submitted survey name and medical specialty: two forms agreeing on those two
fields produce identical image-generation behaviour, the invocation equals the
two-argument call with the defaults tone "professional", style "professional",
text overlay enabled and no caller filename, and the one image prompt sent is
built from exactly those values. -/
theorem C10_image_ignores_tone_style_text (env : Env) (fs : FS) (f1 f2 : Form)
    (h1 : f1.survey_name = f2.survey_name)
    (h2 : f1.medical_specialty = f2.medical_specialty) :
    handler_image_step env fs f1 = handler_image_step env fs f2
    ∧ handler_image_step env fs f1
        = generate_survey_image env fs (f1.survey_name.getD [])
            (f1.medical_specialty.getD (str "general"))
            (str "professional") (str "professional") true none
    ∧ (handler_image_step env fs f1).2.2.image_calls
        = (if env.gemini_available then
            [construct_image_prompt (f1.survey_name.getD [])
              (f1.medical_specialty.getD (str "general"))
              (str "professional") (str "professional") true]
          else []) := by
  refine ⟨?_, rfl, ?_⟩
  · unfold handler_image_step
    rw [h1, h2]
  · unfold handler_image_step
    by_cases hg : env.gemini_available = true
    · by_cases hp : (try_new_gemini_api env
          (construct_image_prompt (f1.survey_name.getD [])
            (f1.medical_specialty.getD (str "general"))
            (str "professional") (str "professional") true)
          (f1.survey_name.getD []) none fs).1.pil.isSome = true
      · rw [generate_survey_image_eq_try env fs _ _ _ _ _ _ hg hp, hg]
        simp
      · rw [Bool.not_eq_true] at hp
        rw [generate_survey_image_eq_fb env fs _ _ _ _ _ _ hg hp, hg]
        simp
    · rw [Bool.not_eq_true] at hg
      rw [generate_survey_image_eq_nogem env fs _ _ _ _ _ _ hg, hg]
      simp

/-- C10 witness: two forms differing only in tone, image style and the
text-overlay field. -/
theorem C10_witness :
    formA.survey_name = formB.survey_name
    ∧ formA.medical_specialty = formB.medical_specialty
    ∧ (handler_image_step env0 fs0 formA = handler_image_step env0 fs0 formB
      ∧ handler_image_step env0 fs0 formA
          = generate_survey_image env0 fs0 (formA.survey_name.getD [])
              (formA.medical_specialty.getD (str "general"))
              (str "professional") (str "professional") true none
      ∧ (handler_image_step env0 fs0 formA).2.2.image_calls
          = (if env0.gemini_available then
              [construct_image_prompt (formA.survey_name.getD [])
                (formA.medical_specialty.getD (str "general"))
                (str "professional") (str "professional") true]
            else [])) :=
  ⟨rfl, rfl, C10_image_ignores_tone_style_text env0 fs0 formA formB rfl rfl⟩

end MedImg
